import Mathlib

/-!
Verification of `easyinfer/model_loader.cpp`.

A shallow embedding of `src/easyinfer/model_loader.cpp`: the element-type
translation `CastDataType`, the descriptor table `ModelLoaderPrivate` built by
`LoadFunction`, the host-layout setters and getters, the shape accessors and
`AdjustStackMemory`, followed by the properties proved about them.

Conventions of the embedding

* C++ enumerations whose declaration lives in a header (`DataType`, `DimOrder`,
  `cnrtDataType`, `cnrtRet_t`) are inductive types with one constructor per
  enumerator named in the source file and one extra constructor standing for
  every other value an object of the enumeration can hold (the `default:`
  branches of the source).
* A thrown `Exception`, an access outside a `std::vector` and an undefined
  integer division are the three kinds of `Fault`.
* Machine integers are `Nat`/`Int` with explicit wrap-around at conversions.
* Every call into the device runtime is recorded, with its status, in the
  call log of `Traced`.
-/

namespace edk

/-! ## Enumerations and value types -/

/-- Modelled from the spec: the enumeration `DataType`, declared in a header
that is not among the sources. The five element types are those of the spec
and of the switches of the source; `other` is any value that is none of them
(the `default:` branch). -/
inductive DataType where
  | UINT8
  | FLOAT32
  | FLOAT16
  | INT16
  | INT32
  | other (raw : Int)
  deriving DecidableEq

/-- Modelled from the spec: the enumeration `DimOrder`, declared in a header
that is not among the sources. The two orders are those of the spec and of
`DimOrderStr`; `other` is any value that is neither (the `default:` branch). -/
inductive DimOrder where
  | NCHW
  | NHWC
  | other (raw : Int)
  deriving DecidableEq

/-- The device runtime's `cnrtDataType`: the five enumerators named in the
source; `other` is any value of the device enumeration that is none of them
(the `default:` branch). -/
inductive cnrtDataType where
  | CNRT_UINT8
  | CNRT_FLOAT32
  | CNRT_FLOAT16
  | CNRT_INT16
  | CNRT_INT32
  | other (raw : Int)
  deriving DecidableEq

/-- Status of a device-runtime call: `CNRT_RET_SUCCESS` or any other code. -/
inductive cnrtRet_t where
  | CNRT_RET_SUCCESS
  | failure (code : Int)
  deriving DecidableEq

/-- Modelled from the spec: the codes of `Exception`, declared in a header
that is not among the sources; these are the four codes thrown in the source
file, the four error kinds of the spec. -/
inductive ExceptionCode where
  | INTERNAL
  | UNSUPPORTED
  | INVALID_ARG
  | UNAVAILABLE
  deriving DecidableEq

/-- What stops an operation: a thrown exception, an access outside the bounds
of a `std::vector`, or an integer division that C++ leaves undefined. -/
inductive Fault where
  | exception (code : ExceptionCode)
  | outOfRange
  | division
  deriving DecidableEq

deriving instance DecidableEq for Except

/-- The statement `THROW_EXCEPTION(code, msg)`. -/
def THROW_EXCEPTION {α : Type} (code : ExceptionCode) : Except Fault α :=
  Except.error (Fault.exception code)

/-- Modelled from the spec: the struct `DataLayout`, declared in a header that
is not among the sources; the source reads and writes its members `dtype` and
`order`. -/
structure DataLayout where
  dtype : DataType
  order : DimOrder
  deriving DecidableEq

/-- Modelled from the spec: the value-initialised `DataLayout` written `{}` in
the source (the declaration of the two enumerations is in a header that is not
part of the file). The spec calls it the zero-valued layout; both fields hold
the enumerator listed first. -/
def DataLayout.zero : DataLayout := ⟨DataType.UINT8, DimOrder.NCHW⟩

/-- Modelled from the spec: the rank-4 `Shape`, declared in a header that is
not among the sources; the four unsigned 32-bit values given to its
constructor `Shape(n, h, w, c)`. -/
structure Shape where
  n : Nat
  h : Nat
  w : Nat
  c : Nat
  deriving DecidableEq

/-- Modelled from the spec: the arbitrary-rank `ShapeEx`, declared in a header
that is not among the sources; a sequence of integer dimension values. -/
abbrev ShapeEx := List Int

/-! ## Machine integers -/

/-- Conversion of an integer to `uint32_t`. -/
def toUInt32 (x : Int) : Nat := (x % 4294967296).toNat

/-- Conversion `static_cast<int>` of an unsigned 32-bit value. -/
def toInt32 (n : Nat) : Int :=
  if n % 4294967296 < 2147483648 then ((n % 4294967296 : Nat) : Int)
  else ((n % 4294967296 : Nat) : Int) - 4294967296

/-- The values of the C++ type `int`. -/
def isInt32 (x : Int) : Prop := -2147483648 ≤ x ∧ x ≤ 2147483647

instance (x : Int) : Decidable (isInt32 x) := by
  unfold isInt32; infer_instance

/-- The values of the C++ type `int64_t`. -/
def isInt64 (x : Int) : Prop := -9223372036854775808 ≤ x ∧ x ≤ 9223372036854775807

instance (x : Int) : Decidable (isInt64 x) := by
  unfold isInt64; infer_instance

/-- The quotient `a / b` of two `int64_t` values: it truncates towards zero,
and is undefined when the divisor is zero or the quotient is no value of
`int64_t`. -/
def divInt64 (a b : Int) : Except Fault Int :=
  if b = 0 then Except.error Fault.division
  else if isInt64 (Int.tdiv a b) then Except.ok (Int.tdiv a b)
  else Except.error Fault.division

/-! ## std::vector access -/

/-- Read `v[i]` of a `std::vector`. -/
def vectorAt {α : Type} (v : List α) (i : Nat) : Except Fault α :=
  match v[i]? with
  | some a => Except.ok a
  | none => Except.error Fault.outOfRange

/-- Write `v[i] = a` of a `std::vector`. -/
def vectorSet {α : Type} (v : List α) (i : Nat) (a : α) : Except Fault (List α) :=
  if i < v.length then Except.ok (v.set i a) else Except.error Fault.outOfRange

/-! ## CastDataType, DataTypeStr, DimOrderStr -/

/-- The overload `cnrtDataType CastDataType(const DataType&)`. -/
def DataType.CastDataType : DataType → Except Fault cnrtDataType
  | DataType.UINT8 => Except.ok cnrtDataType.CNRT_UINT8
  | DataType.FLOAT32 => Except.ok cnrtDataType.CNRT_FLOAT32
  | DataType.FLOAT16 => Except.ok cnrtDataType.CNRT_FLOAT16
  | DataType.INT16 => Except.ok cnrtDataType.CNRT_INT16
  | DataType.INT32 => Except.ok cnrtDataType.CNRT_INT32
  | DataType.other _ => THROW_EXCEPTION ExceptionCode.UNSUPPORTED

/-- The overload `DataType CastDataType(const cnrtDataType&)`. -/
def cnrtDataType.CastDataType : cnrtDataType → Except Fault DataType
  | cnrtDataType.CNRT_UINT8 => Except.ok DataType.UINT8
  | cnrtDataType.CNRT_FLOAT32 => Except.ok DataType.FLOAT32
  | cnrtDataType.CNRT_FLOAT16 => Except.ok DataType.FLOAT16
  | cnrtDataType.CNRT_INT16 => Except.ok DataType.INT16
  | cnrtDataType.CNRT_INT32 => Except.ok DataType.INT32
  | cnrtDataType.other _ => THROW_EXCEPTION ExceptionCode.UNSUPPORTED

/-- The function `DataTypeStr`. -/
def DataTypeStr : DataType → Except Fault String
  | DataType.UINT8 => Except.ok "DataType UINT8"
  | DataType.FLOAT32 => Except.ok "DataType FLOAT32"
  | DataType.FLOAT16 => Except.ok "DataType FLOAT16"
  | DataType.INT16 => Except.ok "DataType INT16"
  | DataType.INT32 => Except.ok "DataType INT32"
  | DataType.other _ => THROW_EXCEPTION ExceptionCode.UNSUPPORTED

/-- The function `DimOrderStr`. -/
def DimOrderStr : DimOrder → Except Fault String
  | DimOrder.NCHW => Except.ok "DimOrder NCHW"
  | DimOrder.NHWC => Except.ok "DimOrder NHWC"
  | DimOrder.other _ => THROW_EXCEPTION ExceptionCode.UNSUPPORTED

/-- The five element types the translation supports. -/
def DataType.supportedTypes : List DataType :=
  [DataType.UINT8, DataType.FLOAT32, DataType.FLOAT16, DataType.INT16, DataType.INT32]

/-- The five device element types the translation supports. -/
def cnrtDataType.supportedTypes : List cnrtDataType :=
  [cnrtDataType.CNRT_UINT8, cnrtDataType.CNRT_FLOAT32, cnrtDataType.CNRT_FLOAT16,
    cnrtDataType.CNRT_INT16, cnrtDataType.CNRT_INT32]

/-! ## The descriptor table -/

/-- The data members of `ModelLoaderPrivate` (the two device handles and the
back pointer carry no data of their own and are left out). -/
structure ModelLoaderPrivate where
  i_data_sizes_ : List Int
  o_data_sizes_ : List Int
  i_mlu_layouts_ : List DataLayout
  o_mlu_layouts_ : List DataLayout
  o_num_ : Nat
  i_num_ : Nat
  model_parallelism_ : Int
  i_cpu_layouts_ : List DataLayout
  o_cpu_layouts_ : List DataLayout
  input_shapes_ : List Shape
  output_shapes_ : List Shape
  input_shapexs_ : List ShapeEx
  output_shapexs_ : List ShapeEx
  deriving DecidableEq

/-- The accessor `ModelLoader::InputNum`. -/
def InputNum (d : ModelLoaderPrivate) : Nat := d.i_num_

/-- The accessor `ModelLoader::OutputNum`. -/
def OutputNum (d : ModelLoaderPrivate) : Nat := d.o_num_

/-- The macro `ONLY_SUPPORT_FLOAT32(layout)`. -/
def ONLY_SUPPORT_FLOAT32 (layout : DataLayout) : Except Fault Unit :=
  if layout.dtype ≠ DataType.FLOAT32 then THROW_EXCEPTION ExceptionCode.INVALID_ARG
  else Except.ok ()

/-- The two `LOGD` lines closing a setter. The second one evaluates
`DataTypeStr(layout.dtype)` and `DimOrderStr(layout.order)`; whether a `LOGD`
statement evaluates its operands is decided by `cxxutil/log.h`, which is not
part of the file, so it is the parameter `logOn`. -/
def logLayout (logOn : Bool) (layout : DataLayout) : Except Fault Unit :=
  if logOn then
    match DataTypeStr layout.dtype with
    | Except.error e => Except.error e
    | Except.ok _ =>
      match DimOrderStr layout.order with
      | Except.error e => Except.error e
      | Except.ok _ => Except.ok ()
  else Except.ok ()

/-- The method `ModelLoader::SetCpuInputLayout`: the table after the call and
how the call ended. -/
def SetCpuInputLayout (logOn : Bool) (d : ModelLoaderPrivate) (layout : DataLayout)
    (data_index : Int) : ModelLoaderPrivate × Except Fault Unit :=
  if data_index < 0 ∨ toUInt32 data_index ≥ d.i_num_ then
    (d, THROW_EXCEPTION ExceptionCode.INVALID_ARG)
  else
    match ONLY_SUPPORT_FLOAT32 layout with
    | Except.error e => (d, Except.error e)
    | Except.ok _ =>
      match vectorSet d.i_cpu_layouts_ data_index.toNat layout with
      | Except.error e => (d, Except.error e)
      | Except.ok v => ({ d with i_cpu_layouts_ := v }, logLayout logOn layout)

/-- The method `ModelLoader::SetCpuOutputLayout`: the table after the call and
how the call ended. -/
def SetCpuOutputLayout (logOn : Bool) (d : ModelLoaderPrivate) (layout : DataLayout)
    (data_index : Int) : ModelLoaderPrivate × Except Fault Unit :=
  if data_index < 0 ∨ toUInt32 data_index ≥ d.o_num_ then
    (d, THROW_EXCEPTION ExceptionCode.INVALID_ARG)
  else
    match ONLY_SUPPORT_FLOAT32 layout with
    | Except.error e => (d, Except.error e)
    | Except.ok _ =>
      match vectorSet d.o_cpu_layouts_ data_index.toNat layout with
      | Except.error e => (d, Except.error e)
      | Except.ok v => ({ d with o_cpu_layouts_ := v }, logLayout logOn layout)

/-- The method `ModelLoader::GetCpuInputLayout`. -/
def GetCpuInputLayout (d : ModelLoaderPrivate) (data_index : Int) : Except Fault DataLayout :=
  if data_index < 0 ∨ data_index ≥ toInt32 (InputNum d) then Except.ok DataLayout.zero
  else vectorAt d.i_cpu_layouts_ data_index.toNat

/-- The method `ModelLoader::GetCpuOutputLayout`. -/
def GetCpuOutputLayout (d : ModelLoaderPrivate) (data_index : Int) : Except Fault DataLayout :=
  if data_index < 0 ∨ data_index ≥ toInt32 (OutputNum d) then Except.ok DataLayout.zero
  else vectorAt d.o_cpu_layouts_ data_index.toNat

/-- The method `ModelLoader::InputShape(uint32_t index)`. -/
def InputShape (d : ModelLoaderPrivate) (index : Nat) : Except Fault ShapeEx :=
  if index > d.i_num_ then THROW_EXCEPTION ExceptionCode.INVALID_ARG
  else vectorAt d.input_shapexs_ index

/-- The method `ModelLoader::OutputShape(uint32_t index)`. -/
def OutputShape (d : ModelLoaderPrivate) (index : Nat) : Except Fault ShapeEx :=
  if index > d.o_num_ then THROW_EXCEPTION ExceptionCode.INVALID_ARG
  else vectorAt d.output_shapexs_ index

/-! ## The device runtime and the log of calls made to it -/

/-- The device-runtime entry points called in the source file. -/
inductive CnrtCall where
  | cnrtLoadModel
  | cnrtLoadModelFromMem
  | cnrtCreateFunction
  | cnrtExtractFunction
  | cnrtQueryModelParallelism
  | cnrtGetInputDataSize
  | cnrtGetOutputDataSize
  | cnrtGetInputDataShape (index : Nat)
  | cnrtGetOutputDataShape (index : Nat)
  | cnrtGetInputDataType
  | cnrtGetOutputDataType
  | cnrtDestroyFunction
  | cnrtUnloadModel
  | cnrtQueryModelStackSize
  | cnrtGetStackMem
  | cnrtSetStackMem (stacksize : Nat)
  deriving DecidableEq

/-- The two calls that release a device handle. -/
def CnrtCall.isRelease : CnrtCall → Bool
  | CnrtCall.cnrtDestroyFunction => true
  | CnrtCall.cnrtUnloadModel => true
  | _ => false

/-- What the device runtime answers to each query about one model: a status
and, where the call has output arguments, their values. An array output comes
with its element count, so it is a list. -/
structure CnrtRuntime where
  cnrtLoadModel : cnrtRet_t
  cnrtLoadModelFromMem : cnrtRet_t
  cnrtCreateFunction : cnrtRet_t
  cnrtExtractFunction : cnrtRet_t
  cnrtQueryModelParallelism : cnrtRet_t × Int
  cnrtGetInputDataSize : cnrtRet_t × List Int
  cnrtGetOutputDataSize : cnrtRet_t × List Int
  cnrtGetInputDataShape : Nat → cnrtRet_t × List Int
  cnrtGetOutputDataShape : Nat → cnrtRet_t × List Int
  cnrtGetInputDataType : cnrtRet_t × List cnrtDataType
  cnrtGetOutputDataType : cnrtRet_t × List cnrtDataType
  cnrtDestroyFunction : cnrtRet_t
  cnrtUnloadModel : cnrtRet_t

/-- The counts that the size queries store into an `int` are values of `int`. -/
def CnrtRuntime.intCounts (rt : CnrtRuntime) : Prop :=
  rt.cnrtGetInputDataSize.2.length ≤ 2147483647 ∧
  rt.cnrtGetOutputDataSize.2.length ≤ 2147483647

instance (rt : CnrtRuntime) : Decidable rt.intCounts := by
  unfold CnrtRuntime.intCounts; infer_instance

/-- A computation that calls the device runtime: the calls made, in order and
each with the status it returned, and the value or fault the computation ended
with. -/
structure Traced (α : Type) where
  calls : List (CnrtCall × cnrtRet_t)
  result : Except Fault α

/-- Sequencing: the second computation runs only when the first ended with a
value; a fault ends the run with the calls made so far. -/
def Traced.bind {α β : Type} (t : Traced α) (f : α → Traced β) : Traced β :=
  match t.result with
  | Except.ok a => ⟨t.calls ++ (f a).calls, (f a).result⟩
  | Except.error e => ⟨t.calls, Except.error e⟩

instance : Monad Traced where
  pure a := ⟨[], Except.ok a⟩
  bind := Traced.bind

/-- One call of the device runtime returning `ret`. -/
def Traced.call (c : CnrtCall) (ret : cnrtRet_t) : Traced Unit :=
  ⟨[(c, ret)], Except.ok ()⟩

/-- A step that calls nothing. -/
def Traced.lift {α : Type} (e : Except Fault α) : Traced α := ⟨[], e⟩

/-- The macro `CHECK_CONDITION(cond, msg)`. -/
def CHECK_CONDITION (cond : Bool) : Traced Unit :=
  Traced.lift (if cond then Except.ok () else THROW_EXCEPTION ExceptionCode.INTERNAL)

/-- The macro `CHECK_CNRT_RET(cnrt_ret, msg)`. -/
def CHECK_CNRT_RET (cnrt_ret : cnrtRet_t) : Traced Unit :=
  CHECK_CONDITION (decide (cnrt_ret = cnrtRet_t.CNRT_RET_SUCCESS))

/-! ## LoadFunction -/

/-- The inner loop `for (int i = 0; i < dim_num; ++i) dim_value[i] = dim_values[i];`
started at index `i` on the vector `dim_value`. -/
def fillDimValue : List Int → Nat → List Nat → Except Fault (List Nat)
  | [], _, dim_value => Except.ok dim_value
  | x :: rest, i, dim_value =>
    match vectorSet dim_value i (toUInt32 x) with
    | Except.error e => Except.error e
    | Except.ok v => fillDimValue rest (i + 1) v

/-- The rank-4 `Shape` derived from the dimension values of one tensor:
`dim_value(4, 1)`, the copy loop, then `Shape(dim_value[0], ..., dim_value[3])`. -/
def shapeOfDims (dim_values : List Int) : Except Fault Shape :=
  match fillDimValue dim_values 0 (List.replicate 4 1) with
  | Except.error e => Except.error e
  | Except.ok dim_value =>
    match vectorAt dim_value 0, vectorAt dim_value 1, vectorAt dim_value 2,
      vectorAt dim_value 3 with
    | Except.ok n, Except.ok h, Except.ok w, Except.ok c => Except.ok ⟨n, h, w, c⟩
    | _, _, _, _ => Except.error Fault.outOfRange

/-- The loop over the tensors of one direction in step 2.2 of `LoadFunction`,
run over the indices listed: query the shape, check the status, append the
`ShapeEx`, derive and append the `Shape`. -/
def shapeLoop (call : Nat → CnrtCall) (query : Nat → cnrtRet_t × List Int) :
    List Nat → Traced (List Shape × List ShapeEx)
  | [] => pure ([], [])
  | i :: rest => do
    Traced.call (call i) (query i).1
    CHECK_CNRT_RET (query i).1
    let shape ← Traced.lift (shapeOfDims (query i).2)
    let tail ← shapeLoop call query rest
    pure (shape :: tail.1, (query i).2 :: tail.2)

/-- The loop of step 2.3 of `LoadFunction` over the indices listed:
`layouts[i].dtype = CastDataType(dtypes[i]); layouts[i].order = DimOrder::NHWC;`. -/
def mluLayoutLoop (dtypes : List cnrtDataType) :
    List Nat → List DataLayout → Except Fault (List DataLayout)
  | [], layouts => Except.ok layouts
  | i :: rest, layouts =>
    match vectorAt dtypes i with
    | Except.error e => Except.error e
    | Except.ok t =>
      match t.CastDataType with
      | Except.error e => Except.error e
      | Except.ok dtype =>
        match vectorSet layouts i ⟨dtype, DimOrder.NHWC⟩ with
        | Except.error e => Except.error e
        | Except.ok v => mluLayoutLoop dtypes rest v

/-- The default host layouts: `resize(num)` of the empty vector, then every
element set to `{FLOAT32, NHWC}`. -/
def defaultCpuLayouts (num : Nat) : List DataLayout :=
  (List.replicate num DataLayout.zero).map
    (fun layout => { layout with dtype := DataType.FLOAT32, order := DimOrder.NHWC })

/-- The method `ModelLoaderPrivate::LoadFunction`: the calls made and the
table built, or the fault that ended the load. -/
def LoadFunction (rt : CnrtRuntime) : Traced ModelLoaderPrivate := do
  Traced.call CnrtCall.cnrtCreateFunction rt.cnrtCreateFunction
  CHECK_CNRT_RET rt.cnrtCreateFunction
  Traced.call CnrtCall.cnrtExtractFunction rt.cnrtExtractFunction
  CHECK_CNRT_RET rt.cnrtExtractFunction
  Traced.call CnrtCall.cnrtQueryModelParallelism rt.cnrtQueryModelParallelism.1
  CHECK_CNRT_RET rt.cnrtQueryModelParallelism.1
  -- 2.1 get io number and data size
  Traced.call CnrtCall.cnrtGetInputDataSize rt.cnrtGetInputDataSize.1
  CHECK_CNRT_RET rt.cnrtGetInputDataSize.1
  let input_num := rt.cnrtGetInputDataSize.2.length
  let i_num_ := toUInt32 (input_num : Int)
  let i_data_sizes_ := rt.cnrtGetInputDataSize.2
  Traced.call CnrtCall.cnrtGetOutputDataSize rt.cnrtGetOutputDataSize.1
  CHECK_CNRT_RET rt.cnrtGetOutputDataSize.1
  let output_num := rt.cnrtGetOutputDataSize.2.length
  let o_num_ := toUInt32 (output_num : Int)
  let o_data_sizes_ := rt.cnrtGetOutputDataSize.2
  -- 2.2 get io shapes
  let inputs ← shapeLoop CnrtCall.cnrtGetInputDataShape rt.cnrtGetInputDataShape
    (List.range input_num)
  let outputs ← shapeLoop CnrtCall.cnrtGetOutputDataShape rt.cnrtGetOutputDataShape
    (List.range output_num)
  -- 2.3 get mlu io data type
  Traced.call CnrtCall.cnrtGetInputDataType rt.cnrtGetInputDataType.1
  CHECK_CNRT_RET rt.cnrtGetInputDataType.1
  CHECK_CONDITION (decide (rt.cnrtGetInputDataType.2.length = i_data_sizes_.length))
  let i_mlu_layouts_ ← Traced.lift (mluLayoutLoop rt.cnrtGetInputDataType.2
    (List.range i_num_) (List.replicate i_num_ DataLayout.zero))
  Traced.call CnrtCall.cnrtGetOutputDataType rt.cnrtGetOutputDataType.1
  CHECK_CNRT_RET rt.cnrtGetOutputDataType.1
  CHECK_CONDITION (decide (rt.cnrtGetOutputDataType.2.length = o_data_sizes_.length))
  let o_mlu_layouts_ ← Traced.lift (mluLayoutLoop rt.cnrtGetOutputDataType.2
    (List.range o_num_) (List.replicate o_num_ DataLayout.zero))
  -- set default cpu layouts
  pure {
    i_data_sizes_ := i_data_sizes_
    o_data_sizes_ := o_data_sizes_
    i_mlu_layouts_ := i_mlu_layouts_
    o_mlu_layouts_ := o_mlu_layouts_
    o_num_ := o_num_
    i_num_ := i_num_
    model_parallelism_ := rt.cnrtQueryModelParallelism.2
    i_cpu_layouts_ := defaultCpuLayouts i_num_
    o_cpu_layouts_ := defaultCpuLayouts o_num_
    input_shapes_ := inputs.1
    output_shapes_ := outputs.1
    input_shapexs_ := inputs.2
    output_shapexs_ := outputs.2 }

/-- The constructor `ModelLoader::ModelLoader(const char* model_path, const char*
function_name)`; `fileOpens` says whether `fopen(model_path, "r")` succeeds. -/
def ModelLoader.ofPath (fileOpens : Bool) (rt : CnrtRuntime) : Traced ModelLoaderPrivate := do
  Traced.lift (if fileOpens then Except.ok () else THROW_EXCEPTION ExceptionCode.UNAVAILABLE)
  Traced.call CnrtCall.cnrtLoadModel rt.cnrtLoadModel
  CHECK_CNRT_RET rt.cnrtLoadModel
  LoadFunction rt

/-- The constructor `ModelLoader::ModelLoader(void* mem_ptr, const char*
function_name)`. -/
def ModelLoader.ofMem (rt : CnrtRuntime) : Traced ModelLoaderPrivate := do
  Traced.call CnrtCall.cnrtLoadModelFromMem rt.cnrtLoadModelFromMem
  CHECK_CNRT_RET rt.cnrtLoadModelFromMem
  LoadFunction rt

/-- The destructor `ModelLoader::~ModelLoader`: both statuses are only logged. -/
def ModelLoader.destructor (rt : CnrtRuntime) : Traced Unit := do
  Traced.call CnrtCall.cnrtDestroyFunction rt.cnrtDestroyFunction
  Traced.call CnrtCall.cnrtUnloadModel rt.cnrtUnloadModel

/-! ## AdjustStackMemory -/

/-- What the device runtime answers to the three stack calls: the status of
each and the `uint64_t` stack size the model needs. -/
structure StackRuntime where
  cnrtQueryModelStackSize : cnrtRet_t × Nat
  cnrtGetStackMem : cnrtRet_t
  cnrtSetStackMem : cnrtRet_t

/-- The method `ModelLoader::AdjustStackMemory` run on a device whose stack
configuration is `deviceStack` (an `unsigned int`): the configuration after the
call, and the calls made with the returned flag. The sum `stack_size + 50` is
computed in `uint64_t` and converted to the `unsigned int` argument of
`cnrtSetStackMem`; a successful set call makes its argument the configuration
of the device. -/
def AdjustStackMemory (rt : StackRuntime) (deviceStack : Nat) : Nat × Traced Bool :=
  let stack_size := rt.cnrtQueryModelStackSize.2
  let current_device_size := deviceStack
  let stacksize := toUInt32 (((stack_size + 50) % 18446744073709551616 : Nat) : Int)
  let run : Traced Bool := do
    Traced.call CnrtCall.cnrtQueryModelStackSize rt.cnrtQueryModelStackSize.1
    CHECK_CNRT_RET rt.cnrtQueryModelStackSize.1
    Traced.call CnrtCall.cnrtGetStackMem rt.cnrtGetStackMem
    CHECK_CNRT_RET rt.cnrtGetStackMem
    if stack_size > current_device_size then do
      Traced.call (CnrtCall.cnrtSetStackMem stacksize) rt.cnrtSetStackMem
      CHECK_CNRT_RET rt.cnrtSetStackMem
      pure true
    else
      pure false
  let setDone : Bool :=
    decide ((CnrtCall.cnrtSetStackMem stacksize, cnrtRet_t.CNRT_RET_SUCCESS) ∈ run.calls)
  (if setDone then stacksize else deviceStack, run)

/-! ## Tables of a loaded model -/

/-- The tables a `ModelLoader` can hold: the one built by a load that ended
without a fault, and every table a setter call leaves behind. -/
inductive Loaded : ModelLoaderPrivate → Prop where
  | load (rt : CnrtRuntime) (d : ModelLoaderPrivate) :
      rt.intCounts → (LoadFunction rt).result = Except.ok d → Loaded d
  | setInput (logOn : Bool) (d : ModelLoaderPrivate) (layout : DataLayout) (i : Int) :
      Loaded d → Loaded (SetCpuInputLayout logOn d layout i).1
  | setOutput (logOn : Bool) (d : ModelLoaderPrivate) (layout : DataLayout) (i : Int) :
      Loaded d → Loaded (SetCpuOutputLayout logOn d layout i).1

/-- A device runtime for a model with two inputs and one output, every call
succeeding. -/
def sampleRuntime : CnrtRuntime where
  cnrtLoadModel := cnrtRet_t.CNRT_RET_SUCCESS
  cnrtLoadModelFromMem := cnrtRet_t.CNRT_RET_SUCCESS
  cnrtCreateFunction := cnrtRet_t.CNRT_RET_SUCCESS
  cnrtExtractFunction := cnrtRet_t.CNRT_RET_SUCCESS
  cnrtQueryModelParallelism := (cnrtRet_t.CNRT_RET_SUCCESS, 4)
  cnrtGetInputDataSize := (cnrtRet_t.CNRT_RET_SUCCESS, [120, 64])
  cnrtGetOutputDataSize := (cnrtRet_t.CNRT_RET_SUCCESS, [40])
  cnrtGetInputDataShape := fun i =>
    (cnrtRet_t.CNRT_RET_SUCCESS, if i = 0 then [4, 1, 5, 3] else [4, 8])
  cnrtGetOutputDataShape := fun _ => (cnrtRet_t.CNRT_RET_SUCCESS, [4, 1, 1, 5])
  cnrtGetInputDataType :=
    (cnrtRet_t.CNRT_RET_SUCCESS, [cnrtDataType.CNRT_UINT8, cnrtDataType.CNRT_FLOAT16])
  cnrtGetOutputDataType := (cnrtRet_t.CNRT_RET_SUCCESS, [cnrtDataType.CNRT_FLOAT16])
  cnrtDestroyFunction := cnrtRet_t.CNRT_RET_SUCCESS
  cnrtUnloadModel := cnrtRet_t.CNRT_RET_SUCCESS

/-- The table `LoadFunction` builds from `sampleRuntime`. -/
def sampleTable : ModelLoaderPrivate where
  i_data_sizes_ := [120, 64]
  o_data_sizes_ := [40]
  i_mlu_layouts_ := [⟨DataType.UINT8, DimOrder.NHWC⟩, ⟨DataType.FLOAT16, DimOrder.NHWC⟩]
  o_mlu_layouts_ := [⟨DataType.FLOAT16, DimOrder.NHWC⟩]
  o_num_ := 1
  i_num_ := 2
  model_parallelism_ := 4
  i_cpu_layouts_ := [⟨DataType.FLOAT32, DimOrder.NHWC⟩, ⟨DataType.FLOAT32, DimOrder.NHWC⟩]
  o_cpu_layouts_ := [⟨DataType.FLOAT32, DimOrder.NHWC⟩]
  input_shapes_ := [⟨4, 1, 5, 3⟩, ⟨4, 8, 1, 1⟩]
  output_shapes_ := [⟨4, 1, 1, 5⟩]
  input_shapexs_ := [[4, 1, 5, 3], [4, 8]]
  output_shapexs_ := [[4, 1, 1, 5]]

/-! ## The privileged accessor and the per-sample sizes -/

/-- The method `ModelLoaderInternalInterface::InputDataSize`. -/
def InputDataSize (d : ModelLoaderPrivate) (data_index : Int) : Except Fault Int :=
  if data_index < 0 ∨ data_index ≥ toInt32 (InputNum d) then Except.ok 0
  else vectorAt d.i_data_sizes_ data_index.toNat

/-- The method `ModelLoaderInternalInterface::OutputDataSize`. -/
def OutputDataSize (d : ModelLoaderPrivate) (data_index : Int) : Except Fault Int :=
  if data_index < 0 ∨ data_index ≥ toInt32 (OutputNum d) then Except.ok 0
  else vectorAt d.o_data_sizes_ data_index.toNat

/-- The method `ModelLoaderInternalInterface::GetMluInputLayout`. -/
def GetMluInputLayout (d : ModelLoaderPrivate) (data_index : Int) : Except Fault DataLayout :=
  if data_index < 0 ∨ data_index ≥ toInt32 (InputNum d) then Except.ok DataLayout.zero
  else vectorAt d.i_mlu_layouts_ data_index.toNat

/-- The method `ModelLoaderInternalInterface::GetMluOutputLayout`. -/
def GetMluOutputLayout (d : ModelLoaderPrivate) (data_index : Int) : Except Fault DataLayout :=
  if data_index < 0 ∨ data_index ≥ toInt32 (OutputNum d) then Except.ok DataLayout.zero
  else vectorAt d.o_mlu_layouts_ data_index.toNat

/-- The method `ModelLoader::GetInputDataBatchAlignSize`:
`InputDataSize(data_index) / input_shapexs_[data_index][0]`. -/
def GetInputDataBatchAlignSize (d : ModelLoaderPrivate) (data_index : Int) : Except Fault Int :=
  if data_index < 0 ∨ data_index ≥ toInt32 (InputNum d) then Except.ok 0
  else
    match InputDataSize d data_index with
    | Except.error e => Except.error e
    | Except.ok size =>
      match vectorAt d.input_shapexs_ data_index.toNat with
      | Except.error e => Except.error e
      | Except.ok shapex =>
        match vectorAt shapex 0 with
        | Except.error e => Except.error e
        | Except.ok batch => divInt64 size batch

/-- The method `ModelLoader::GetOutputDataBatchAlignSize`:
`OutputDataSize(data_index) / output_shapexs_[data_index][0]`. -/
def GetOutputDataBatchAlignSize (d : ModelLoaderPrivate) (data_index : Int) : Except Fault Int :=
  if data_index < 0 ∨ data_index ≥ toInt32 (OutputNum d) then Except.ok 0
  else
    match OutputDataSize d data_index with
    | Except.error e => Except.error e
    | Except.ok size =>
      match vectorAt d.output_shapexs_ data_index.toNat with
      | Except.error e => Except.error e
      | Except.ok shapex =>
        match vectorAt shapex 0 with
        | Except.error e => Except.error e
        | Except.ok batch => divInt64 size batch

/-! ## Sequences of setter calls -/

/-- One call of a host-layout setter, with its arguments. -/
inductive SetterCall where
  | input (logOn : Bool) (layout : DataLayout) (data_index : Int)
  | output (logOn : Bool) (layout : DataLayout) (data_index : Int)

/-- The table after one setter call, however the call ended. -/
def applySetter (d : ModelLoaderPrivate) : SetterCall → ModelLoaderPrivate
  | SetterCall.input logOn layout i => (SetCpuInputLayout logOn d layout i).1
  | SetterCall.output logOn layout i => (SetCpuOutputLayout logOn d layout i).1

/-- The table after a sequence of setter calls, made in the order listed. -/
def applySetters (d : ModelLoaderPrivate) : List SetterCall → ModelLoaderPrivate
  | [] => d
  | c :: rest => applySetters (applySetter d c) rest

/-- The runtime of `sampleRuntime` reporting a shape of rank 5 for input 0. -/
def rankFiveRuntime : CnrtRuntime :=
  { sampleRuntime with
    cnrtGetInputDataShape := fun i =>
      (cnrtRet_t.CNRT_RET_SUCCESS, if i = 0 then [4, 2, 3, 5, 6] else [4, 8]) }

/-- The runtime of `sampleRuntime` reporting a device element type outside the
five supported ones for input 1. -/
def unsupportedTypeRuntime : CnrtRuntime :=
  { sampleRuntime with
    cnrtGetInputDataType :=
      (cnrtRet_t.CNRT_RET_SUCCESS, [cnrtDataType.CNRT_UINT8, cnrtDataType.other 33]) }

/-- The runtime of `sampleRuntime` whose input type query reports three
element types for the two inputs of the size query. -/
def countMismatchRuntime : CnrtRuntime :=
  { sampleRuntime with
    cnrtGetInputDataType :=
      (cnrtRet_t.CNRT_RET_SUCCESS,
        [cnrtDataType.CNRT_UINT8, cnrtDataType.CNRT_FLOAT16, cnrtDataType.CNRT_FLOAT16]) }

/-- Every array of the table has as many rows as the count of its direction,
and both counts are values of `int`. -/
structure TableInv (d : ModelLoaderPrivate) : Prop where
  i_num_le : d.i_num_ ≤ 2147483647
  o_num_le : d.o_num_ ≤ 2147483647
  i_sizes : d.i_data_sizes_.length = d.i_num_
  o_sizes : d.o_data_sizes_.length = d.o_num_
  i_mlu : d.i_mlu_layouts_.length = d.i_num_
  o_mlu : d.o_mlu_layouts_.length = d.o_num_
  i_cpu : d.i_cpu_layouts_.length = d.i_num_
  o_cpu : d.o_cpu_layouts_.length = d.o_num_
  i_shapes : d.input_shapes_.length = d.i_num_
  o_shapes : d.output_shapes_.length = d.o_num_
  i_shapexs : d.input_shapexs_.length = d.i_num_
  o_shapexs : d.output_shapexs_.length = d.o_num_

/-- A computation whose device-runtime calls are all followed by their status
check and release nothing: no logged call is a release call, and a logged call
with a status other than success means the computation ended with `INTERNAL`. -/
def Traced.Checked {α : Type} (t : Traced α) : Prop :=
  (∀ e ∈ t.calls, e.1.isRelease = false) ∧
  ((∃ e ∈ t.calls, e.2 ≠ cnrtRet_t.CNRT_RET_SUCCESS) →
    t.result = Except.error (Fault.exception ExceptionCode.INTERNAL))

/-- The runtime of `sampleRuntime` with a `cnrtCreateFunction` that fails. -/
def createFailsRuntime : CnrtRuntime :=
  { sampleRuntime with cnrtCreateFunction := cnrtRet_t.failure 632 }

/-- A stack runtime whose calls all succeed, for a model that needs `stack_size`. -/
def stackRuntime (stack_size : Nat) : StackRuntime where
  cnrtQueryModelStackSize := (cnrtRet_t.CNRT_RET_SUCCESS, stack_size)
  cnrtGetStackMem := cnrtRet_t.CNRT_RET_SUCCESS
  cnrtSetStackMem := cnrtRet_t.CNRT_RET_SUCCESS

/-! ## Lemmas on `Traced` -/

theorem Traced.bind_eq {α β : Type} (t : Traced α) (f : α → Traced β) :
    (t >>= f) = Traced.bind t f := rfl

theorem Traced.pure_eq {α : Type} (a : α) :
    (pure a : Traced α) = ⟨[], Except.ok a⟩ := rfl

theorem Traced.bind_result_ok {α β : Type} (t : Traced α) (f : α → Traced β) (b : β) :
    (Traced.bind t f).result = Except.ok b ↔
      ∃ a, t.result = Except.ok a ∧ (f a).result = Except.ok b := by
  unfold Traced.bind
  cases h : t.result with
  | ok a => simp
  | error e => simp

theorem Traced.call_result (c : CnrtCall) (ret : cnrtRet_t) :
    (Traced.call c ret).result = Except.ok () := rfl

theorem CHECK_CONDITION_result_ok (cond : Bool) (u : Unit) :
    (CHECK_CONDITION cond).result = Except.ok u ↔ cond = true := by
  cases cond <;> simp [CHECK_CONDITION, Traced.lift, THROW_EXCEPTION]

theorem CHECK_CNRT_RET_result_ok (ret : cnrtRet_t) (u : Unit) :
    (CHECK_CNRT_RET ret).result = Except.ok u ↔ ret = cnrtRet_t.CNRT_RET_SUCCESS := by
  simp [CHECK_CNRT_RET, CHECK_CONDITION_result_ok]

theorem Traced.lift_result {α : Type} (e : Except Fault α) : (Traced.lift e).result = e := rfl

/-- What a load that ends without a fault has computed. -/
theorem LoadFunction_ok (rt : CnrtRuntime) (d : ModelLoaderPrivate)
    (h : (LoadFunction rt).result = Except.ok d) :
    ∃ inputs outputs i_mlu o_mlu,
      (shapeLoop CnrtCall.cnrtGetInputDataShape rt.cnrtGetInputDataShape
        (List.range rt.cnrtGetInputDataSize.2.length)).result = Except.ok inputs ∧
      (shapeLoop CnrtCall.cnrtGetOutputDataShape rt.cnrtGetOutputDataShape
        (List.range rt.cnrtGetOutputDataSize.2.length)).result = Except.ok outputs ∧
      rt.cnrtGetInputDataType.2.length = rt.cnrtGetInputDataSize.2.length ∧
      rt.cnrtGetOutputDataType.2.length = rt.cnrtGetOutputDataSize.2.length ∧
      mluLayoutLoop rt.cnrtGetInputDataType.2
        (List.range (toUInt32 (rt.cnrtGetInputDataSize.2.length : Int)))
        (List.replicate (toUInt32 (rt.cnrtGetInputDataSize.2.length : Int)) DataLayout.zero)
          = Except.ok i_mlu ∧
      mluLayoutLoop rt.cnrtGetOutputDataType.2
        (List.range (toUInt32 (rt.cnrtGetOutputDataSize.2.length : Int)))
        (List.replicate (toUInt32 (rt.cnrtGetOutputDataSize.2.length : Int)) DataLayout.zero)
          = Except.ok o_mlu ∧
      d = {
        i_data_sizes_ := rt.cnrtGetInputDataSize.2
        o_data_sizes_ := rt.cnrtGetOutputDataSize.2
        i_mlu_layouts_ := i_mlu
        o_mlu_layouts_ := o_mlu
        o_num_ := toUInt32 (rt.cnrtGetOutputDataSize.2.length : Int)
        i_num_ := toUInt32 (rt.cnrtGetInputDataSize.2.length : Int)
        model_parallelism_ := rt.cnrtQueryModelParallelism.2
        i_cpu_layouts_ := defaultCpuLayouts (toUInt32 (rt.cnrtGetInputDataSize.2.length : Int))
        o_cpu_layouts_ := defaultCpuLayouts (toUInt32 (rt.cnrtGetOutputDataSize.2.length : Int))
        input_shapes_ := inputs.1
        output_shapes_ := outputs.1
        input_shapexs_ := inputs.2
        output_shapexs_ := outputs.2 } := by
  simp only [LoadFunction, Traced.bind_eq, Traced.bind_result_ok, Traced.call_result,
    CHECK_CNRT_RET_result_ok, CHECK_CONDITION_result_ok, Traced.lift_result,
    Traced.pure_eq, decide_eq_true_eq] at h
  obtain ⟨_, -, _, -, _, -, _, -, _, -, _, -, _, -, _, -, _, -, _, -, inputs, hin, outputs, hout,
    _, -, _, -, _, hci, i_mlu, him, _, -, _, -, _, hco, o_mlu, hom, hd⟩ := h
  refine ⟨inputs, outputs, i_mlu, o_mlu, hin, hout, hci, hco, him, hom, ?_⟩
  simpa using hd.symm

/-! ## Lemmas on the conversions and on vector access -/

theorem toUInt32_natCast (n : Nat) (h : n ≤ 2147483647) : toUInt32 (n : Int) = n := by
  unfold toUInt32
  have h1 : ((n : Int) % 4294967296) = (n : Int) := Int.emod_eq_of_lt (by omega) (by omega)
  rw [h1]; simp

theorem toUInt32_of_nonneg (x : Int) (h0 : 0 ≤ x) (h : x ≤ 2147483647) :
    toUInt32 x = x.toNat := by
  unfold toUInt32
  have h1 : (x % 4294967296) = x := Int.emod_eq_of_lt h0 (by omega)
  rw [h1]

theorem toUInt32_of_lt (x : Int) (h0 : 0 ≤ x) (h : x < 4294967296) :
    toUInt32 x = x.toNat := by
  unfold toUInt32
  have h1 : (x % 4294967296) = x := Int.emod_eq_of_lt h0 h
  rw [h1]

theorem toInt32_of_le (n : Nat) (h : n ≤ 2147483647) : toInt32 n = (n : Int) := by
  unfold toInt32
  have h1 : n % 4294967296 = n := Nat.mod_eq_of_lt (by omega)
  rw [h1, if_pos (by omega)]

theorem vectorAt_of_lt {α : Type} (v : List α) (i : Nat) (h : i < v.length) :
    vectorAt v i = Except.ok (v.get ⟨i, h⟩) := by
  unfold vectorAt
  rw [List.getElem?_eq_getElem h]
  rfl

theorem vectorAt_of_le {α : Type} (v : List α) (i : Nat) (h : v.length ≤ i) :
    vectorAt v i = Except.error Fault.outOfRange := by
  unfold vectorAt
  rw [List.getElem?_eq_none h]

theorem vectorAt_set_self {α : Type} (v : List α) (i : Nat) (a : α) (h : i < v.length) :
    vectorAt (v.set i a) i = Except.ok a := by
  unfold vectorAt
  rw [List.getElem?_set_self h]

theorem vectorSet_length {α : Type} (v w : List α) (i : Nat) (a : α)
    (h : vectorSet v i a = Except.ok w) : w.length = v.length := by
  unfold vectorSet at h
  split at h
  · cases h; simp
  · cases h

/-! ## Lemmas on the loops of `LoadFunction` -/

theorem shapeLoop_ok (call : Nat → CnrtCall) (query : Nat → cnrtRet_t × List Int)
    (l : List Nat) (p : List Shape × List ShapeEx)
    (h : (shapeLoop call query l).result = Except.ok p) :
    p.1.length = l.length ∧ p.2 = l.map (fun i => (query i).2) := by
  induction l generalizing p with
  | nil =>
    simp only [shapeLoop, Traced.pure_eq] at h
    cases h; simp
  | cons i rest ih =>
    simp only [shapeLoop, Traced.bind_eq, Traced.bind_result_ok, Traced.call_result,
      CHECK_CNRT_RET_result_ok, Traced.lift_result, Traced.pure_eq] at h
    obtain ⟨_, -, _, -, shape, -, tail, htail, hp⟩ := h
    have := ih tail htail
    cases hp
    simp [this.1, this.2]

theorem mluLayoutLoop_length (dtypes : List cnrtDataType) (l : List Nat)
    (v w : List DataLayout) (h : mluLayoutLoop dtypes l v = Except.ok w) :
    w.length = v.length := by
  induction l generalizing v with
  | nil =>
    simp only [mluLayoutLoop] at h
    cases h; rfl
  | cons i rest ih =>
    simp only [mluLayoutLoop] at h
    split at h
    · cases h
    · split at h
      · cases h
      · split at h
        · cases h
        · rename_i v1 hv1
          rw [ih v1 h, vectorSet_length _ _ _ _ hv1]

theorem defaultCpuLayouts_eq (num : Nat) :
    defaultCpuLayouts num = List.replicate num ⟨DataType.FLOAT32, DimOrder.NHWC⟩ := by
  simp [defaultCpuLayouts]

/-! ## The invariant of loaded tables -/

theorem LoadFunction_inv (rt : CnrtRuntime) (d : ModelLoaderPrivate) (hrt : rt.intCounts)
    (h : (LoadFunction rt).result = Except.ok d) : TableInv d := by
  obtain ⟨inputs, outputs, i_mlu, o_mlu, hin, hout, -, -, him, hom, hd⟩ := LoadFunction_ok rt d h
  have hi := toUInt32_natCast _ hrt.1
  have ho := toUInt32_natCast _ hrt.2
  rw [hi] at him hd
  rw [ho] at hom hd
  have h1 := shapeLoop_ok _ _ _ _ hin
  have h2 := shapeLoop_ok _ _ _ _ hout
  have h3 := mluLayoutLoop_length _ _ _ _ him
  have h4 := mluLayoutLoop_length _ _ _ _ hom
  subst hd
  constructor <;>
    simp [h1.1, h1.2, h2.1, h2.2, h3, h4, defaultCpuLayouts_eq, hrt.1, hrt.2]

theorem SetCpuInputLayout_inv (logOn : Bool) (d : ModelLoaderPrivate) (layout : DataLayout)
    (i : Int) (h : TableInv d) : TableInv (SetCpuInputLayout logOn d layout i).1 := by
  unfold SetCpuInputLayout
  split
  · exact h
  · split
    · exact h
    · split
      · exact h
      · rename_i v hv
        have hl := vectorSet_length _ _ _ _ hv
        exact { h with i_cpu := by simp [hl, h.i_cpu] }

theorem SetCpuOutputLayout_inv (logOn : Bool) (d : ModelLoaderPrivate) (layout : DataLayout)
    (i : Int) (h : TableInv d) : TableInv (SetCpuOutputLayout logOn d layout i).1 := by
  unfold SetCpuOutputLayout
  split
  · exact h
  · split
    · exact h
    · split
      · exact h
      · rename_i v hv
        have hl := vectorSet_length _ _ _ _ hv
        exact { h with o_cpu := by simp [hl, h.o_cpu] }

theorem Loaded.inv {d : ModelLoaderPrivate} (h : Loaded d) : TableInv d := by
  induction h with
  | load rt d hrt hd => exact LoadFunction_inv rt d hrt hd
  | setInput logOn d layout i _ ih => exact SetCpuInputLayout_inv logOn d layout i ih
  | setOutput logOn d layout i _ ih => exact SetCpuOutputLayout_inv logOn d layout i ih

theorem sampleRuntime_load : (LoadFunction sampleRuntime).result = Except.ok sampleTable := by
  decide

theorem sampleTable_loaded : Loaded sampleTable :=
  Loaded.load sampleRuntime sampleTable (by decide) sampleRuntime_load

/-! ## Lemmas on the setters and getters -/

theorem SetCpuInputLayout_bad_index (logOn : Bool) (d : ModelLoaderPrivate)
    (layout : DataLayout) (i : Int) (hi : isInt32 i) (h : i < 0 ∨ (InputNum d : Int) ≤ i) :
    SetCpuInputLayout logOn d layout i =
      (d, Except.error (Fault.exception ExceptionCode.INVALID_ARG)) := by
  unfold SetCpuInputLayout
  rw [if_pos]
  · rfl
  · by_cases h0 : i < 0
    · exact Or.inl h0
    · right
      rw [toUInt32_of_nonneg i (by omega) hi.2]
      unfold InputNum at h
      omega

theorem SetCpuOutputLayout_bad_index (logOn : Bool) (d : ModelLoaderPrivate)
    (layout : DataLayout) (i : Int) (hi : isInt32 i) (h : i < 0 ∨ (OutputNum d : Int) ≤ i) :
    SetCpuOutputLayout logOn d layout i =
      (d, Except.error (Fault.exception ExceptionCode.INVALID_ARG)) := by
  unfold SetCpuOutputLayout
  rw [if_pos]
  · rfl
  · by_cases h0 : i < 0
    · exact Or.inl h0
    · right
      rw [toUInt32_of_nonneg i (by omega) hi.2]
      unfold OutputNum at h
      omega

theorem index_check_passes (num : Nat) (i : Int) (hi : isInt32 i) (h0 : 0 ≤ i)
    (h : i < (num : Int)) : ¬ (i < 0 ∨ toUInt32 i ≥ num) := by
  rw [toUInt32_of_nonneg i h0 hi.2]
  omega

theorem SetCpuInputLayout_not_float (logOn : Bool) (d : ModelLoaderPrivate)
    (layout : DataLayout) (i : Int) (hi : isInt32 i) (h0 : 0 ≤ i) (h : i < (InputNum d : Int))
    (hl : layout.dtype ≠ DataType.FLOAT32) :
    SetCpuInputLayout logOn d layout i =
      (d, Except.error (Fault.exception ExceptionCode.INVALID_ARG)) := by
  unfold SetCpuInputLayout
  rw [if_neg (index_check_passes d.i_num_ i hi h0 h)]
  simp [ONLY_SUPPORT_FLOAT32, hl, THROW_EXCEPTION]

theorem SetCpuOutputLayout_not_float (logOn : Bool) (d : ModelLoaderPrivate)
    (layout : DataLayout) (i : Int) (hi : isInt32 i) (h0 : 0 ≤ i) (h : i < (OutputNum d : Int))
    (hl : layout.dtype ≠ DataType.FLOAT32) :
    SetCpuOutputLayout logOn d layout i =
      (d, Except.error (Fault.exception ExceptionCode.INVALID_ARG)) := by
  unfold SetCpuOutputLayout
  rw [if_neg (index_check_passes d.o_num_ i hi h0 h)]
  simp [ONLY_SUPPORT_FLOAT32, hl, THROW_EXCEPTION]

/-- A setter call with an index in range and a FLOAT32 layout on a table whose
host-layout array has one row per input: the row is overwritten, and the call
ends as its log lines end. -/
theorem SetCpuInputLayout_valid (logOn : Bool) (d : ModelLoaderPrivate)
    (layout : DataLayout) (i : Int) (hi : isInt32 i) (h0 : 0 ≤ i) (h : i < (InputNum d : Int))
    (hlen : d.i_cpu_layouts_.length = d.i_num_) (hl : layout.dtype = DataType.FLOAT32) :
    SetCpuInputLayout logOn d layout i =
      ({ d with i_cpu_layouts_ := d.i_cpu_layouts_.set i.toNat layout },
        logLayout logOn layout) := by
  unfold SetCpuInputLayout
  rw [if_neg (index_check_passes d.i_num_ i hi h0 h)]
  have hlt : i.toNat < d.i_cpu_layouts_.length := by
    unfold InputNum at h; omega
  simp [ONLY_SUPPORT_FLOAT32, hl, vectorSet, hlt]

theorem SetCpuOutputLayout_valid (logOn : Bool) (d : ModelLoaderPrivate)
    (layout : DataLayout) (i : Int) (hi : isInt32 i) (h0 : 0 ≤ i) (h : i < (OutputNum d : Int))
    (hlen : d.o_cpu_layouts_.length = d.o_num_) (hl : layout.dtype = DataType.FLOAT32) :
    SetCpuOutputLayout logOn d layout i =
      ({ d with o_cpu_layouts_ := d.o_cpu_layouts_.set i.toNat layout },
        logLayout logOn layout) := by
  unfold SetCpuOutputLayout
  rw [if_neg (index_check_passes d.o_num_ i hi h0 h)]
  have hlt : i.toNat < d.o_cpu_layouts_.length := by
    unfold OutputNum at h; omega
  simp [ONLY_SUPPORT_FLOAT32, hl, vectorSet, hlt]

theorem GetCpuInputLayout_valid (d : ModelLoaderPrivate) (i : Int) (h0 : 0 ≤ i)
    (h : i < (InputNum d : Int)) (hnum : d.i_num_ ≤ 2147483647) :
    GetCpuInputLayout d i = vectorAt d.i_cpu_layouts_ i.toNat := by
  unfold GetCpuInputLayout
  rw [if_neg]
  have : toInt32 (InputNum d) = (InputNum d : Int) := toInt32_of_le _ hnum
  rw [this]; omega

theorem GetCpuOutputLayout_valid (d : ModelLoaderPrivate) (i : Int) (h0 : 0 ≤ i)
    (h : i < (OutputNum d : Int)) (hnum : d.o_num_ ≤ 2147483647) :
    GetCpuOutputLayout d i = vectorAt d.o_cpu_layouts_ i.toNat := by
  unfold GetCpuOutputLayout
  rw [if_neg]
  have : toInt32 (OutputNum d) = (OutputNum d : Int) := toInt32_of_le _ hnum
  rw [this]; omega

theorem logLayout_float32 (logOn : Bool) (o : DimOrder)
    (h : o = DimOrder.NCHW ∨ o = DimOrder.NHWC ∨ logOn = false) :
    logLayout logOn ⟨DataType.FLOAT32, o⟩ = Except.ok () := by
  cases logOn
  · simp [logLayout]
  · rcases h with h | h | h
    · subst h; simp [logLayout, DataTypeStr, DimOrderStr]
    · subst h; simp [logLayout, DataTypeStr, DimOrderStr]
    · cases h

theorem logLayout_ne_invalid_arg (logOn : Bool) (layout : DataLayout) :
    logLayout logOn layout ≠ Except.error (Fault.exception ExceptionCode.INVALID_ARG) := by
  unfold logLayout
  cases logOn
  · simp
  · rcases layout with ⟨t, o⟩
    cases t <;> cases o <;> simp [DataTypeStr, DimOrderStr, THROW_EXCEPTION]

/-! ## Host-layout setters and getters -/

/-- C1: on every loaded table, for every valid input index `i` and every
dimension order `o`, a successful `SetCpuInputLayout({FLOAT32, o}, i)` followed
by `GetCpuInputLayout(i)` returns exactly `{FLOAT32, o}`, and the call is
successful whenever `o` is NCHW or NHWC (or the log line is not evaluated); the
same for `SetCpuOutputLayout` / `GetCpuOutputLayout` with the output count. -/
theorem set_then_get_cpu_layout (logOn : Bool) (d : ModelLoaderPrivate) (hd : Loaded d)
    (o : DimOrder) (i : Int) (h0 : 0 ≤ i) :
    (i < (InputNum d : Int) →
      (∀ d1, SetCpuInputLayout logOn d ⟨DataType.FLOAT32, o⟩ i = (d1, Except.ok ()) →
        GetCpuInputLayout d1 i = Except.ok ⟨DataType.FLOAT32, o⟩) ∧
      (o = DimOrder.NCHW ∨ o = DimOrder.NHWC ∨ logOn = false →
        (SetCpuInputLayout logOn d ⟨DataType.FLOAT32, o⟩ i).2 = Except.ok ())) ∧
    (i < (OutputNum d : Int) →
      (∀ d1, SetCpuOutputLayout logOn d ⟨DataType.FLOAT32, o⟩ i = (d1, Except.ok ()) →
        GetCpuOutputLayout d1 i = Except.ok ⟨DataType.FLOAT32, o⟩) ∧
      (o = DimOrder.NCHW ∨ o = DimOrder.NHWC ∨ logOn = false →
        (SetCpuOutputLayout logOn d ⟨DataType.FLOAT32, o⟩ i).2 = Except.ok ())) := by
  have inv := hd.inv
  constructor
  · intro h
    have hi : isInt32 i := by
      have := inv.i_num_le
      unfold InputNum at h; unfold isInt32; omega
    have hset := SetCpuInputLayout_valid logOn d ⟨DataType.FLOAT32, o⟩ i hi h0 h inv.i_cpu rfl
    have hlt : i.toNat < d.i_cpu_layouts_.length := by
      have := inv.i_cpu
      unfold InputNum at h; omega
    refine ⟨?_, ?_⟩
    · intro d1 h1
      rw [hset] at h1
      obtain ⟨hd1, -⟩ := Prod.mk.inj h1
      subst hd1
      refine (GetCpuInputLayout_valid _ i h0 ?_ ?_).trans ?_
      · exact h
      · exact inv.i_num_le
      · exact vectorAt_set_self _ _ _ hlt
    · intro ho
      rw [hset]
      exact logLayout_float32 logOn o ho
  · intro h
    have hi : isInt32 i := by
      have := inv.o_num_le
      unfold OutputNum at h; unfold isInt32; omega
    have hset := SetCpuOutputLayout_valid logOn d ⟨DataType.FLOAT32, o⟩ i hi h0 h inv.o_cpu rfl
    have hlt : i.toNat < d.o_cpu_layouts_.length := by
      have := inv.o_cpu
      unfold OutputNum at h; omega
    refine ⟨?_, ?_⟩
    · intro d1 h1
      rw [hset] at h1
      obtain ⟨hd1, -⟩ := Prod.mk.inj h1
      subst hd1
      refine (GetCpuOutputLayout_valid _ i h0 ?_ ?_).trans ?_
      · exact h
      · exact inv.o_num_le
      · exact vectorAt_set_self _ _ _ hlt
    · intro ho
      rw [hset]
      exact logLayout_float32 logOn o ho

theorem set_then_get_cpu_layout_witness :
    GetCpuInputLayout (SetCpuInputLayout true sampleTable ⟨DataType.FLOAT32, DimOrder.NCHW⟩ 1).1 1
        = Except.ok ⟨DataType.FLOAT32, DimOrder.NCHW⟩ ∧
    GetCpuOutputLayout (SetCpuOutputLayout true sampleTable ⟨DataType.FLOAT32, DimOrder.NCHW⟩ 0).1 0
        = Except.ok ⟨DataType.FLOAT32, DimOrder.NCHW⟩ :=
  ⟨((set_then_get_cpu_layout true sampleTable sampleTable_loaded DimOrder.NCHW 1
      (by decide)).1 (by decide)).1 _ (by decide),
   ((set_then_get_cpu_layout true sampleTable sampleTable_loaded DimOrder.NCHW 0
      (by decide)).2 (by decide)).1 _ (by decide)⟩

/-- C2: on every loaded table, for every valid index `i` and every layout whose
element type is not FLOAT32, `SetCpuInputLayout(layout, i)` fails with
`INVALID_ARG` and leaves the whole table unchanged, so host-layout row `i` reads
as before; likewise for `SetCpuOutputLayout`. -/
theorem set_cpu_layout_rejects_non_float32 (logOn : Bool) (d : ModelLoaderPrivate)
    (hd : Loaded d) (layout : DataLayout) (hl : layout.dtype ≠ DataType.FLOAT32)
    (i : Int) (h0 : 0 ≤ i) :
    (i < (InputNum d : Int) →
      SetCpuInputLayout logOn d layout i =
        (d, Except.error (Fault.exception ExceptionCode.INVALID_ARG)) ∧
      GetCpuInputLayout (SetCpuInputLayout logOn d layout i).1 i = GetCpuInputLayout d i) ∧
    (i < (OutputNum d : Int) →
      SetCpuOutputLayout logOn d layout i =
        (d, Except.error (Fault.exception ExceptionCode.INVALID_ARG)) ∧
      GetCpuOutputLayout (SetCpuOutputLayout logOn d layout i).1 i = GetCpuOutputLayout d i) := by
  have inv := hd.inv
  constructor
  · intro h
    have hi : isInt32 i := by
      have := inv.i_num_le
      unfold InputNum at h; unfold isInt32; omega
    have hset := SetCpuInputLayout_not_float logOn d layout i hi h0 h hl
    exact ⟨hset, by rw [hset]⟩
  · intro h
    have hi : isInt32 i := by
      have := inv.o_num_le
      unfold OutputNum at h; unfold isInt32; omega
    have hset := SetCpuOutputLayout_not_float logOn d layout i hi h0 h hl
    exact ⟨hset, by rw [hset]⟩

theorem set_cpu_layout_rejects_non_float32_witness :
    SetCpuInputLayout true sampleTable ⟨DataType.UINT8, DimOrder.NHWC⟩ 1 =
      (sampleTable, Except.error (Fault.exception ExceptionCode.INVALID_ARG)) ∧
    SetCpuOutputLayout true sampleTable ⟨DataType.UINT8, DimOrder.NHWC⟩ 0 =
      (sampleTable, Except.error (Fault.exception ExceptionCode.INVALID_ARG)) :=
  ⟨((set_cpu_layout_rejects_non_float32 true sampleTable sampleTable_loaded
      ⟨DataType.UINT8, DimOrder.NHWC⟩ (by decide) 1 (by decide)).1 (by decide)).1,
   ((set_cpu_layout_rejects_non_float32 true sampleTable sampleTable_loaded
      ⟨DataType.UINT8, DimOrder.NHWC⟩ (by decide) 0 (by decide)).2 (by decide)).1⟩

/-- C3: for every layout and every `int` index that is negative or at least
the input count, `SetCpuInputLayout(layout, index)` fails with `INVALID_ARG`
and leaves the table unchanged; the call ends with `INVALID_ARG` exactly when
the index is outside `0 <= index < InputNum()` or the element type is not
FLOAT32, so the index check passes exactly on the indices in range. The same
for `SetCpuOutputLayout` with the output count. -/
theorem set_cpu_layout_index_check (logOn : Bool) (d : ModelLoaderPrivate)
    (layout : DataLayout) (i : Int) (hi : isInt32 i) :
    ((i < 0 ∨ (InputNum d : Int) ≤ i) →
      SetCpuInputLayout logOn d layout i =
        (d, Except.error (Fault.exception ExceptionCode.INVALID_ARG))) ∧
    ((SetCpuInputLayout logOn d layout i).2 =
        Except.error (Fault.exception ExceptionCode.INVALID_ARG) ↔
      ((i < 0 ∨ (InputNum d : Int) ≤ i) ∨ layout.dtype ≠ DataType.FLOAT32)) ∧
    ((i < 0 ∨ (OutputNum d : Int) ≤ i) →
      SetCpuOutputLayout logOn d layout i =
        (d, Except.error (Fault.exception ExceptionCode.INVALID_ARG))) ∧
    ((SetCpuOutputLayout logOn d layout i).2 =
        Except.error (Fault.exception ExceptionCode.INVALID_ARG) ↔
      ((i < 0 ∨ (OutputNum d : Int) ≤ i) ∨ layout.dtype ≠ DataType.FLOAT32)) := by
  refine ⟨SetCpuInputLayout_bad_index logOn d layout i hi, ?_,
    SetCpuOutputLayout_bad_index logOn d layout i hi, ?_⟩
  · constructor
    · intro h
      by_contra hn
      push_neg at hn
      obtain ⟨⟨h0, hlt⟩, hl⟩ := hn
      unfold SetCpuInputLayout at h
      rw [if_neg (index_check_passes d.i_num_ i hi h0 hlt)] at h
      simp only [ONLY_SUPPORT_FLOAT32, hl, ne_eq, not_true_eq_false, if_false] at h
      split at h
      · rename_i e he
        unfold vectorSet at he
        split at he
        · cases he
        · cases he; cases h
      · exact logLayout_ne_invalid_arg logOn layout h
    · rintro (h | h)
      · rw [SetCpuInputLayout_bad_index logOn d layout i hi h]
      · by_cases hr : i < 0 ∨ (InputNum d : Int) ≤ i
        · rw [SetCpuInputLayout_bad_index logOn d layout i hi hr]
        · push_neg at hr
          rw [SetCpuInputLayout_not_float logOn d layout i hi hr.1 hr.2 h]
  · constructor
    · intro h
      by_contra hn
      push_neg at hn
      obtain ⟨⟨h0, hlt⟩, hl⟩ := hn
      unfold SetCpuOutputLayout at h
      rw [if_neg (index_check_passes d.o_num_ i hi h0 hlt)] at h
      simp only [ONLY_SUPPORT_FLOAT32, hl, ne_eq, not_true_eq_false, if_false] at h
      split at h
      · rename_i e he
        unfold vectorSet at he
        split at he
        · cases he
        · cases he; cases h
      · exact logLayout_ne_invalid_arg logOn layout h
    · rintro (h | h)
      · rw [SetCpuOutputLayout_bad_index logOn d layout i hi h]
      · by_cases hr : i < 0 ∨ (OutputNum d : Int) ≤ i
        · rw [SetCpuOutputLayout_bad_index logOn d layout i hi hr]
        · push_neg at hr
          rw [SetCpuOutputLayout_not_float logOn d layout i hi hr.1 hr.2 h]

theorem set_cpu_layout_index_check_witness :
    SetCpuInputLayout true sampleTable ⟨DataType.FLOAT32, DimOrder.NHWC⟩ (-1) =
      (sampleTable, Except.error (Fault.exception ExceptionCode.INVALID_ARG)) ∧
    SetCpuOutputLayout true sampleTable ⟨DataType.FLOAT32, DimOrder.NHWC⟩ 1 =
      (sampleTable, Except.error (Fault.exception ExceptionCode.INVALID_ARG)) :=
  ⟨(set_cpu_layout_index_check true sampleTable ⟨DataType.FLOAT32, DimOrder.NHWC⟩ (-1)
      (by decide)).1 (by decide),
   (set_cpu_layout_index_check true sampleTable ⟨DataType.FLOAT32, DimOrder.NHWC⟩ 1
      (by decide)).2.2.1 (by decide)⟩

theorem ofPath_result_ok (fileOpens : Bool) (rt : CnrtRuntime) (d : ModelLoaderPrivate)
    (h : (ModelLoader.ofPath fileOpens rt).result = Except.ok d) :
    (LoadFunction rt).result = Except.ok d := by
  simp only [ModelLoader.ofPath, Traced.bind_eq, Traced.bind_result_ok] at h
  obtain ⟨_, -, _, -, _, -, h⟩ := h
  exact h

theorem ofMem_result_ok (rt : CnrtRuntime) (d : ModelLoaderPrivate)
    (h : (ModelLoader.ofMem rt).result = Except.ok d) :
    (LoadFunction rt).result = Except.ok d := by
  simp only [ModelLoader.ofMem, Traced.bind_eq, Traced.bind_result_ok] at h
  obtain ⟨_, -, _, -, h⟩ := h
  exact h

theorem vectorAt_replicate {α : Type} (n i : Nat) (a : α) (h : i < n) :
    vectorAt (List.replicate n a) i = Except.ok a := by
  unfold vectorAt
  have : (List.replicate n a)[i]? = some a := by
    rw [List.getElem?_eq_getElem (by simpa using h)]
    simp
  rw [this]

/-- C4: right after a load that ended without a fault (through `LoadFunction`,
hence through either constructor) and before any setter call,
`GetCpuInputLayout(i)` returns `{FLOAT32, NHWC}` for every input index `i` and
`GetCpuOutputLayout(j)` returns `{FLOAT32, NHWC}` for every output index,
whatever element types the device runtime reported. -/
theorem default_cpu_layout_after_load (fileOpens : Bool) (rt : CnrtRuntime)
    (hrt : rt.intCounts) (d : ModelLoaderPrivate)
    (hload : (LoadFunction rt).result = Except.ok d ∨
      (ModelLoader.ofPath fileOpens rt).result = Except.ok d ∨
      (ModelLoader.ofMem rt).result = Except.ok d)
    (i : Int) (h0 : 0 ≤ i) :
    (i < (InputNum d : Int) →
      GetCpuInputLayout d i = Except.ok ⟨DataType.FLOAT32, DimOrder.NHWC⟩) ∧
    (i < (OutputNum d : Int) →
      GetCpuOutputLayout d i = Except.ok ⟨DataType.FLOAT32, DimOrder.NHWC⟩) := by
  have h : (LoadFunction rt).result = Except.ok d := by
    rcases hload with h | h | h
    · exact h
    · exact ofPath_result_ok fileOpens rt d h
    · exact ofMem_result_ok rt d h
  have inv := LoadFunction_inv rt d hrt h
  obtain ⟨inputs, outputs, i_mlu, o_mlu, -, -, -, -, -, -, hd⟩ := LoadFunction_ok rt d h
  have hic : d.i_cpu_layouts_ =
      List.replicate d.i_num_ ⟨DataType.FLOAT32, DimOrder.NHWC⟩ := by
    rw [hd]; simp only [defaultCpuLayouts_eq]
  have hoc : d.o_cpu_layouts_ =
      List.replicate d.o_num_ ⟨DataType.FLOAT32, DimOrder.NHWC⟩ := by
    rw [hd]; simp only [defaultCpuLayouts_eq]
  constructor
  · intro hlt
    rw [GetCpuInputLayout_valid d i h0 hlt inv.i_num_le, hic]
    exact vectorAt_replicate _ _ _ (by unfold InputNum at hlt; omega)
  · intro hlt
    rw [GetCpuOutputLayout_valid d i h0 hlt inv.o_num_le, hoc]
    exact vectorAt_replicate _ _ _ (by unfold OutputNum at hlt; omega)

theorem default_cpu_layout_after_load_witness :
    GetCpuInputLayout sampleTable 1 = Except.ok ⟨DataType.FLOAT32, DimOrder.NHWC⟩ ∧
    GetCpuOutputLayout sampleTable 0 = Except.ok ⟨DataType.FLOAT32, DimOrder.NHWC⟩ :=
  ⟨(default_cpu_layout_after_load true sampleRuntime (by decide) sampleTable
      (Or.inl (by decide)) 1 (by decide)).1 (by decide),
   (default_cpu_layout_after_load true sampleRuntime (by decide) sampleTable
      (Or.inl (by decide)) 0 (by decide)).2 (by decide)⟩

/-! ## CastDataType -/

/-- C5: for every supported element type `t` (UINT8, FLOAT32, FLOAT16, INT16,
INT32) the translation to the device type succeeds and translating its result
back succeeds and returns `t`; hence the translation to the device type is
injective on the supported types. -/
theorem CastDataType_roundtrip :
    (∀ t ∈ DataType.supportedTypes,
      ∃ c, t.CastDataType = Except.ok c ∧ c.CastDataType = Except.ok t) ∧
    (∀ t1 ∈ DataType.supportedTypes, ∀ t2 ∈ DataType.supportedTypes,
      t1.CastDataType = t2.CastDataType → t1 = t2) := by
  constructor
  · intro t ht
    simp only [DataType.supportedTypes, List.mem_cons, List.mem_singleton, List.not_mem_nil,
      or_false] at ht
    rcases ht with rfl | rfl | rfl | rfl | rfl <;> exact ⟨_, rfl, rfl⟩
  · intro t1 h1 t2 h2 h
    simp only [DataType.supportedTypes, List.mem_cons, List.mem_singleton, List.not_mem_nil,
      or_false] at h1 h2
    rcases h1 with rfl | rfl | rfl | rfl | rfl <;>
      rcases h2 with rfl | rfl | rfl | rfl | rfl <;>
      first
        | rfl
        | (simp [DataType.CastDataType] at h)

theorem CastDataType_roundtrip_witness :
    ∃ c, DataType.FLOAT16.CastDataType = Except.ok c ∧
      c.CastDataType = Except.ok DataType.FLOAT16 :=
  CastDataType_roundtrip.1 DataType.FLOAT16 (by decide)

/-- C6: for every device element type other than the five supported ones, and
every portable element type other than the five supported ones, `CastDataType`
fails with `UNSUPPORTED` and returns no value; it returns a value exactly on
the five supported ones. -/
theorem CastDataType_unsupported :
    (∀ c : cnrtDataType,
      (c ∉ cnrtDataType.supportedTypes →
        c.CastDataType = Except.error (Fault.exception ExceptionCode.UNSUPPORTED)) ∧
      ((∃ t, c.CastDataType = Except.ok t) ↔ c ∈ cnrtDataType.supportedTypes)) ∧
    (∀ t : DataType,
      (t ∉ DataType.supportedTypes →
        t.CastDataType = Except.error (Fault.exception ExceptionCode.UNSUPPORTED)) ∧
      ((∃ c, t.CastDataType = Except.ok c) ↔ t ∈ DataType.supportedTypes)) := by
  constructor
  · intro c
    cases c <;>
      simp [cnrtDataType.supportedTypes, cnrtDataType.CastDataType, THROW_EXCEPTION]
  · intro t
    cases t <;>
      simp [DataType.supportedTypes, DataType.CastDataType, THROW_EXCEPTION]

theorem CastDataType_unsupported_witness :
    (cnrtDataType.other 20).CastDataType =
      Except.error (Fault.exception ExceptionCode.UNSUPPORTED) ∧
    (DataType.other 5).CastDataType =
      Except.error (Fault.exception ExceptionCode.UNSUPPORTED) :=
  ⟨(CastDataType_unsupported.1 (cnrtDataType.other 20)).1 (by decide),
   (CastDataType_unsupported.2 (DataType.other 5)).1 (by decide)⟩

/-! ## InputShape and OutputShape -/

/-- On every loaded table `InputShape(index)` throws `INVALID_ARG` exactly when
`index > InputNum()`; at `index == InputNum()` it does not throw but reads
`input_shapexs_` one past its last row; for `index < InputNum()` it returns the
stored `ShapeEx`. The same for `OutputShape` with `OutputNum()`. -/
theorem InputShape_index_check (d : ModelLoaderPrivate) (hd : Loaded d) (index : Nat) :
    ((InputShape d index = Except.error (Fault.exception ExceptionCode.INVALID_ARG) ↔
        InputNum d < index) ∧
      (index = InputNum d → InputShape d index = Except.error Fault.outOfRange) ∧
      (index < InputNum d →
        ∃ s, d.input_shapexs_[index]? = some s ∧ InputShape d index = Except.ok s)) ∧
    ((OutputShape d index = Except.error (Fault.exception ExceptionCode.INVALID_ARG) ↔
        OutputNum d < index) ∧
      (index = OutputNum d → OutputShape d index = Except.error Fault.outOfRange) ∧
      (index < OutputNum d →
        ∃ s, d.output_shapexs_[index]? = some s ∧ OutputShape d index = Except.ok s)) := by
  have inv := hd.inv
  constructor
  · have hlen := inv.i_shapexs
    unfold InputShape InputNum
    by_cases hgt : index > d.i_num_
    · rw [if_pos hgt]
      refine ⟨⟨fun _ => hgt, fun _ => rfl⟩, fun h => by omega, fun h => by omega⟩
    · rw [if_neg hgt]
      by_cases hlt : index < d.i_num_
      · have hl : index < d.input_shapexs_.length := by omega
        rw [vectorAt_of_lt _ _ hl]
        refine ⟨⟨fun h => (by cases h), fun h => absurd h hgt⟩, fun h => by omega, fun _ => ?_⟩
        exact ⟨_, List.getElem?_eq_getElem hl, rfl⟩
      · have hl : d.input_shapexs_.length ≤ index := by omega
        rw [vectorAt_of_le _ _ hl]
        refine ⟨⟨fun h => (by cases h), fun h => absurd h hgt⟩, fun _ => rfl, fun h => absurd h hlt⟩
  · have hlen := inv.o_shapexs
    unfold OutputShape OutputNum
    by_cases hgt : index > d.o_num_
    · rw [if_pos hgt]
      refine ⟨⟨fun _ => hgt, fun _ => rfl⟩, fun h => by omega, fun h => by omega⟩
    · rw [if_neg hgt]
      by_cases hlt : index < d.o_num_
      · have hl : index < d.output_shapexs_.length := by omega
        rw [vectorAt_of_lt _ _ hl]
        refine ⟨⟨fun h => (by cases h), fun h => absurd h hgt⟩, fun h => by omega, fun _ => ?_⟩
        exact ⟨_, List.getElem?_eq_getElem hl, rfl⟩
      · have hl : d.output_shapexs_.length ≤ index := by omega
        rw [vectorAt_of_le _ _ hl]
        refine ⟨⟨fun h => (by cases h), fun h => absurd h hgt⟩, fun _ => rfl, fun h => absurd h hlt⟩

/-- C7 at the failing input: on the loaded table with two inputs and one
output, `InputShape(2)` and `OutputShape(1)`, the index equal to the count, do
not throw `INVALID_ARG`; they read the `ShapeEx` array one past its last row.
Indices below the count return the stored row and indices above it throw. -/
theorem InputShape_at_count :
    (LoadFunction sampleRuntime).result = Except.ok sampleTable ∧
    InputNum sampleTable = 2 ∧
    InputShape sampleTable 2 = Except.error Fault.outOfRange ∧
    InputShape sampleTable 1 = Except.ok [4, 8] ∧
    InputShape sampleTable 3 = Except.error (Fault.exception ExceptionCode.INVALID_ARG) ∧
    OutputNum sampleTable = 1 ∧
    OutputShape sampleTable 1 = Except.error Fault.outOfRange ∧
    OutputShape sampleTable 0 = Except.ok [4, 1, 1, 5] ∧
    OutputShape sampleTable 2 = Except.error (Fault.exception ExceptionCode.INVALID_ARG) := by
  decide

/-! ## Construction and the calls it makes -/

theorem Traced.Checked.of_pure {α : Type} (a : α) : (pure a : Traced α).Checked := by
  constructor
  · intro e he; cases he
  · rintro ⟨e, he, -⟩; cases he

theorem Traced.Checked.of_lift {α : Type} (x : Except Fault α) : (Traced.lift x).Checked := by
  constructor
  · intro e he; cases he
  · rintro ⟨e, he, -⟩; cases he

theorem Traced.Checked.of_bind {α β : Type} (t : Traced α) (f : α → Traced β)
    (ht : t.Checked) (hf : ∀ a, t.result = Except.ok a → (f a).Checked) :
    (Traced.bind t f).Checked := by
  unfold Traced.bind
  cases hres : t.result with
  | error x =>
    refine ⟨ht.1, fun h => ?_⟩
    have := ht.2 h
    rw [hres] at this
    simpa using this
  | ok a =>
    have hfa := hf a hres
    constructor
    · intro e he
      rcases List.mem_append.1 he with h | h
      · exact ht.1 e h
      · exact hfa.1 e h
    · rintro ⟨e, he, hne⟩
      rcases List.mem_append.1 he with h | h
      · have := ht.2 ⟨e, h, hne⟩
        rw [hres] at this
        cases this
      · exact hfa.2 ⟨e, h, hne⟩

/-- A call that is not a release call, its status check, and a checked rest. -/
theorem Traced.Checked.of_step {β : Type} (c : CnrtCall) (ret : cnrtRet_t) (f : Traced β)
    (hc : c.isRelease = false) (hf : ret = cnrtRet_t.CNRT_RET_SUCCESS → f.Checked) :
    (Traced.bind (Traced.call c ret)
      (fun _ => Traced.bind (CHECK_CNRT_RET ret) (fun _ => f))).Checked := by
  by_cases hret : ret = cnrtRet_t.CNRT_RET_SUCCESS
  · have hfc := hf hret
    subst hret
    constructor
    · intro e he
      simp only [Traced.bind, Traced.call, CHECK_CNRT_RET, CHECK_CONDITION, Traced.lift,
        decide_True, if_true, List.append_nil, List.nil_append, List.singleton_append,
        List.mem_cons] at he
      rcases he with rfl | h
      · exact hc
      · exact hfc.1 e h
    · rintro ⟨e, he, hne⟩
      simp only [Traced.bind, Traced.call, CHECK_CNRT_RET, CHECK_CONDITION, Traced.lift,
        decide_True, if_true, List.append_nil, List.nil_append, List.singleton_append,
        List.mem_cons] at he ⊢
      rcases he with rfl | h
      · exact absurd rfl hne
      · exact hfc.2 ⟨e, h, hne⟩
  · constructor
    · intro e he
      simp only [Traced.bind, Traced.call, CHECK_CNRT_RET, CHECK_CONDITION, Traced.lift,
        hret, decide_False, THROW_EXCEPTION, List.append_nil, List.mem_singleton,
        Bool.false_eq_true, if_false] at he
      subst he
      exact hc
    · intro _
      simp only [Traced.bind, Traced.call, CHECK_CNRT_RET, CHECK_CONDITION, Traced.lift,
        hret, decide_False, THROW_EXCEPTION, Bool.false_eq_true, if_false]

theorem shapeLoop_checked (call : Nat → CnrtCall) (query : Nat → cnrtRet_t × List Int)
    (hcall : ∀ i, (call i).isRelease = false) (l : List Nat) :
    (shapeLoop call query l).Checked := by
  induction l with
  | nil => exact Traced.Checked.of_pure _
  | cons i rest ih =>
    simp only [shapeLoop, Traced.bind_eq]
    refine Traced.Checked.of_step _ _ _ (hcall i) (fun _ => ?_)
    refine Traced.Checked.of_bind _ _ (Traced.Checked.of_lift _) (fun _ _ => ?_)
    refine Traced.Checked.of_bind _ _ ih (fun _ _ => ?_)
    exact Traced.Checked.of_pure _

theorem LoadFunction_checked (rt : CnrtRuntime) : (LoadFunction rt).Checked := by
  simp only [LoadFunction, Traced.bind_eq]
  refine Traced.Checked.of_step _ _ _ rfl (fun _ => ?_)
  refine Traced.Checked.of_step _ _ _ rfl (fun _ => ?_)
  refine Traced.Checked.of_step _ _ _ rfl (fun _ => ?_)
  refine Traced.Checked.of_step _ _ _ rfl (fun _ => ?_)
  refine Traced.Checked.of_step _ _ _ rfl (fun _ => ?_)
  refine Traced.Checked.of_bind _ _
    (shapeLoop_checked CnrtCall.cnrtGetInputDataShape _ (fun _ => rfl) _) (fun _ _ => ?_)
  refine Traced.Checked.of_bind _ _
    (shapeLoop_checked CnrtCall.cnrtGetOutputDataShape _ (fun _ => rfl) _) (fun _ _ => ?_)
  refine Traced.Checked.of_step _ _ _ rfl (fun _ => ?_)
  refine Traced.Checked.of_bind _ _ (Traced.Checked.of_lift _) (fun _ _ => ?_)
  refine Traced.Checked.of_bind _ _ (Traced.Checked.of_lift _) (fun _ _ => ?_)
  refine Traced.Checked.of_step _ _ _ rfl (fun _ => ?_)
  refine Traced.Checked.of_bind _ _ (Traced.Checked.of_lift _) (fun _ _ => ?_)
  refine Traced.Checked.of_bind _ _ (Traced.Checked.of_lift _) (fun _ _ => ?_)
  exact Traced.Checked.of_pure _

theorem ofPath_calls (rt : CnrtRuntime) (h : rt.cnrtLoadModel = cnrtRet_t.CNRT_RET_SUCCESS) :
    (ModelLoader.ofPath true rt).calls =
      (CnrtCall.cnrtLoadModel, cnrtRet_t.CNRT_RET_SUCCESS) :: (LoadFunction rt).calls ∧
    (ModelLoader.ofPath true rt).result = (LoadFunction rt).result ∧
    (ModelLoader.ofPath false rt).calls = [] := by
  simp only [ModelLoader.ofPath, Traced.bind_eq, Traced.bind, Traced.lift, Traced.call,
    CHECK_CNRT_RET, CHECK_CONDITION, h, decide_True, if_true, THROW_EXCEPTION]
  refine ⟨?_, ?_, ?_⟩
  · cases (LoadFunction rt).result <;> simp
  · cases (LoadFunction rt).result <;> simp
  · simp

theorem ofMem_calls (rt : CnrtRuntime)
    (h : rt.cnrtLoadModelFromMem = cnrtRet_t.CNRT_RET_SUCCESS) :
    (ModelLoader.ofMem rt).calls =
      (CnrtCall.cnrtLoadModelFromMem, cnrtRet_t.CNRT_RET_SUCCESS) :: (LoadFunction rt).calls ∧
    (ModelLoader.ofMem rt).result = (LoadFunction rt).result := by
  simp only [ModelLoader.ofMem, Traced.bind_eq, Traced.bind, Traced.call,
    CHECK_CNRT_RET, CHECK_CONDITION, Traced.lift, h, decide_True, if_true]
  refine ⟨?_, ?_⟩
  · cases (LoadFunction rt).result <;> simp
  · cases (LoadFunction rt).result <;> simp

theorem not_release_ne (c : CnrtCall) (h : c.isRelease = false) :
    c ≠ CnrtCall.cnrtDestroyFunction ∧ c ≠ CnrtCall.cnrtUnloadModel := by
  constructor <;> rintro rfl <;> cases h

/-- C8, as stated, fails: with a model that loads and a `cnrtCreateFunction`
that returns a failure status, construction from a path ends with `INTERNAL`
after the two calls `cnrtLoadModel`, `cnrtCreateFunction`; `cnrtUnloadModel` is
not called for the model handle that was acquired. -/
theorem failed_construction_keeps_model_handle :
    createFailsRuntime.cnrtLoadModel = cnrtRet_t.CNRT_RET_SUCCESS ∧
    (ModelLoader.ofPath true createFailsRuntime).result =
      Except.error (Fault.exception ExceptionCode.INTERNAL) ∧
    (ModelLoader.ofPath true createFailsRuntime).calls =
      [(CnrtCall.cnrtLoadModel, cnrtRet_t.CNRT_RET_SUCCESS),
       (CnrtCall.cnrtCreateFunction, cnrtRet_t.failure 632)] ∧
    ¬ (∃ e ∈ (ModelLoader.ofPath true createFailsRuntime).calls,
        e.1 = CnrtCall.cnrtUnloadModel) := by
  decide

/-- C8, as amended: for every construction (from a path or from memory) in
which the model container loads successfully and a later device-runtime call
of the attempt returns a non-success status, construction fails with
`INTERNAL`, and the attempt makes no release call: the load call is in the
log, and neither `cnrtDestroyFunction` nor `cnrtUnloadModel` is. -/
theorem failed_construction_releases_nothing (rt : CnrtRuntime) :
    (rt.cnrtLoadModel = cnrtRet_t.CNRT_RET_SUCCESS → ∀ fileOpens : Bool,
      (∃ e ∈ (ModelLoader.ofPath fileOpens rt).calls, e.2 ≠ cnrtRet_t.CNRT_RET_SUCCESS) →
      (ModelLoader.ofPath fileOpens rt).result =
        Except.error (Fault.exception ExceptionCode.INTERNAL) ∧
      (CnrtCall.cnrtLoadModel, cnrtRet_t.CNRT_RET_SUCCESS) ∈
        (ModelLoader.ofPath fileOpens rt).calls ∧
      ∀ e ∈ (ModelLoader.ofPath fileOpens rt).calls,
        e.1 ≠ CnrtCall.cnrtDestroyFunction ∧ e.1 ≠ CnrtCall.cnrtUnloadModel) ∧
    (rt.cnrtLoadModelFromMem = cnrtRet_t.CNRT_RET_SUCCESS →
      (∃ e ∈ (ModelLoader.ofMem rt).calls, e.2 ≠ cnrtRet_t.CNRT_RET_SUCCESS) →
      (ModelLoader.ofMem rt).result =
        Except.error (Fault.exception ExceptionCode.INTERNAL) ∧
      (CnrtCall.cnrtLoadModelFromMem, cnrtRet_t.CNRT_RET_SUCCESS) ∈
        (ModelLoader.ofMem rt).calls ∧
      ∀ e ∈ (ModelLoader.ofMem rt).calls,
        e.1 ≠ CnrtCall.cnrtDestroyFunction ∧ e.1 ≠ CnrtCall.cnrtUnloadModel) := by
  have hlf := LoadFunction_checked rt
  constructor
  · intro hload fileOpens hfail
    obtain ⟨hcalls, hres, hnone⟩ := ofPath_calls rt hload
    cases fileOpens with
    | false =>
      rw [hnone] at hfail
      obtain ⟨e, he, -⟩ := hfail
      cases he
    | true =>
      rw [hcalls] at hfail ⊢
      rw [hres]
      obtain ⟨e, he, hne⟩ := hfail
      refine ⟨?_, List.mem_cons_self _ _, ?_⟩
      · rcases List.mem_cons.1 he with rfl | h
        · exact absurd rfl hne
        · exact hlf.2 ⟨e, h, hne⟩
      · intro e1 he1
        rcases List.mem_cons.1 he1 with rfl | h
        · exact ⟨by decide, by decide⟩
        · exact not_release_ne _ (hlf.1 e1 h)
  · intro hload hfail
    obtain ⟨hcalls, hres⟩ := ofMem_calls rt hload
    rw [hcalls] at hfail ⊢
    rw [hres]
    obtain ⟨e, he, hne⟩ := hfail
    refine ⟨?_, List.mem_cons_self _ _, ?_⟩
    · rcases List.mem_cons.1 he with rfl | h
      · exact absurd rfl hne
      · exact hlf.2 ⟨e, h, hne⟩
    · intro e1 he1
      rcases List.mem_cons.1 he1 with rfl | h
      · exact ⟨by decide, by decide⟩
      · exact not_release_ne _ (hlf.1 e1 h)

theorem failed_construction_releases_nothing_witness :
    (ModelLoader.ofPath true createFailsRuntime).result =
        Except.error (Fault.exception ExceptionCode.INTERNAL) ∧
      (CnrtCall.cnrtLoadModel, cnrtRet_t.CNRT_RET_SUCCESS) ∈
        (ModelLoader.ofPath true createFailsRuntime).calls ∧
      ∀ e ∈ (ModelLoader.ofPath true createFailsRuntime).calls,
        e.1 ≠ CnrtCall.cnrtDestroyFunction ∧ e.1 ≠ CnrtCall.cnrtUnloadModel :=
  (failed_construction_releases_nothing createFailsRuntime).1 (by decide) true (by decide)

/-! ## AdjustStackMemory -/

/-- With all three runtime calls succeeding and a requirement whose sum with
the margin fits the `unsigned int` argument of the set call, the call returns
whether the requirement exceeds the configuration, sets the configuration to
the requirement plus 50 when it does, and otherwise leaves it alone. -/
theorem AdjustStackMemory_in_range (r c : Nat) (hr : r + 50 < 4294967296) :
    (AdjustStackMemory (stackRuntime r) c).2.result = Except.ok (decide (r > c)) ∧
    (r > c → (AdjustStackMemory (stackRuntime r) c).1 = r + 50) ∧
    (¬ r > c → (AdjustStackMemory (stackRuntime r) c).1 = c ∧
      ∀ e ∈ (AdjustStackMemory (stackRuntime r) c).2.calls, ∀ v, e.1 ≠ CnrtCall.cnrtSetStackMem v) := by
  have h64 : (r + 50) % 18446744073709551616 = r + 50 := Nat.mod_eq_of_lt (by omega)
  have h32 : toUInt32 ((r : Int) + 50) = r + 50 := by
    rw [toUInt32_of_lt _ (by omega) (by omega)]
    omega
  by_cases h : r > c
  · simp [AdjustStackMemory, stackRuntime, Traced.bind_eq, Traced.bind, Traced.call,
      CHECK_CNRT_RET, CHECK_CONDITION, Traced.lift, Traced.pure_eq, h, h64, h32]
  · simp [AdjustStackMemory, stackRuntime, Traced.bind_eq, Traced.bind, Traced.call,
      CHECK_CNRT_RET, CHECK_CONDITION, Traced.lift, Traced.pure_eq, h]

/-- C9 at the failing input: a model that needs a stack of 4294967295 on a
device configured with 100. All calls succeed, the call returns true, and the
set call receives 49, the sum 4294967345 cut to 32 bits, which becomes the
configuration instead of the requirement plus 50. -/
theorem AdjustStackMemory_truncates :
    (AdjustStackMemory (stackRuntime 4294967295) 100).2.result = Except.ok true ∧
    (AdjustStackMemory (stackRuntime 4294967295) 100).2.calls =
      [(CnrtCall.cnrtQueryModelStackSize, cnrtRet_t.CNRT_RET_SUCCESS),
       (CnrtCall.cnrtGetStackMem, cnrtRet_t.CNRT_RET_SUCCESS),
       (CnrtCall.cnrtSetStackMem 49, cnrtRet_t.CNRT_RET_SUCCESS)] ∧
    (AdjustStackMemory (stackRuntime 4294967295) 100).1 = 49 ∧
    (AdjustStackMemory (stackRuntime 4294967295) 100).1 ≠ 4294967295 + 50 := by
  decide

/-- C10 at the failing input: a model that needs a stack of 4294967295 on a
device configured with 100. The first call returns true and leaves the
configuration at 49, below the requirement; the call that follows, with the
same requirement, returns true again and issues another set call. -/
theorem AdjustStackMemory_second_call_adjusts_again :
    (AdjustStackMemory (stackRuntime 4294967295) 100).2.result = Except.ok true ∧
    (AdjustStackMemory (stackRuntime 4294967295) 100).1 < 4294967295 ∧
    (AdjustStackMemory (stackRuntime 4294967295)
      (AdjustStackMemory (stackRuntime 4294967295) 100).1).2.result = Except.ok true ∧
    (CnrtCall.cnrtSetStackMem 49, cnrtRet_t.CNRT_RET_SUCCESS) ∈
      (AdjustStackMemory (stackRuntime 4294967295)
        (AdjustStackMemory (stackRuntime 4294967295) 100).1).2.calls := by
  decide

/-! ## Read accessors on any index -/

theorem vectorAt_of_lt_getElem? {α : Type} (v : List α) (i : Nat) (h : i < v.length) :
    ∃ a, v[i]? = some a ∧ vectorAt v i = Except.ok a :=
  ⟨v.get ⟨i, h⟩, List.getElem?_eq_getElem h, vectorAt_of_lt v i h⟩

/-- The index guard of the read accessors on a count that is a value of `int`
and an index in range: the guard does not fire. -/
theorem read_guard_in (num : Nat) (hnum : num ≤ 2147483647) (i : Int) (h0 : 0 ≤ i)
    (h : i < (num : Int)) : ¬ (i < 0 ∨ i ≥ toInt32 num) := by
  rw [toInt32_of_le num hnum]; omega

/-- The index guard of the read accessors on a count that is a value of `int`
and an index out of range: the guard fires. -/
theorem read_guard_out (num : Nat) (hnum : num ≤ 2147483647) (i : Int)
    (h : i < 0 ∨ (num : Int) ≤ i) : i < 0 ∨ i ≥ toInt32 num := by
  rw [toInt32_of_le num hnum]; omega

/-- C13: on every loaded table `GetCpuInputLayout(index)` ends without a fault for
every index: for `0 <= index < InputNum()` it returns the stored host-layout row,
and for every index that is negative or at least `InputNum()` it returns the
value-initialised `DataLayout`; the same for `GetCpuOutputLayout` with
`OutputNum()`. -/
theorem get_cpu_layout_never_fails (d : ModelLoaderPrivate) (hd : Loaded d) (i : Int) :
    ((0 ≤ i ∧ i < (InputNum d : Int)) →
      ∃ row, d.i_cpu_layouts_[i.toNat]? = some row ∧ GetCpuInputLayout d i = Except.ok row) ∧
    ((i < 0 ∨ (InputNum d : Int) ≤ i) → GetCpuInputLayout d i = Except.ok DataLayout.zero) ∧
    ((0 ≤ i ∧ i < (OutputNum d : Int)) →
      ∃ row, d.o_cpu_layouts_[i.toNat]? = some row ∧ GetCpuOutputLayout d i = Except.ok row) ∧
    ((i < 0 ∨ (OutputNum d : Int) ≤ i) → GetCpuOutputLayout d i = Except.ok DataLayout.zero) := by
  have inv := hd.inv
  refine ⟨?_, ?_, ?_, ?_⟩
  · rintro ⟨h0, h⟩
    unfold GetCpuInputLayout
    rw [if_neg (read_guard_in (InputNum d) inv.i_num_le i h0 h)]
    exact vectorAt_of_lt_getElem? _ _ (by have := inv.i_cpu; unfold InputNum at h; omega)
  · intro h
    unfold GetCpuInputLayout
    rw [if_pos (read_guard_out (InputNum d) inv.i_num_le i h)]
  · rintro ⟨h0, h⟩
    unfold GetCpuOutputLayout
    rw [if_neg (read_guard_in (OutputNum d) inv.o_num_le i h0 h)]
    exact vectorAt_of_lt_getElem? _ _ (by have := inv.o_cpu; unfold OutputNum at h; omega)
  · intro h
    unfold GetCpuOutputLayout
    rw [if_pos (read_guard_out (OutputNum d) inv.o_num_le i h)]

theorem get_cpu_layout_never_fails_witness :
    GetCpuInputLayout sampleTable (-1) = Except.ok DataLayout.zero ∧
    GetCpuInputLayout sampleTable 2 = Except.ok DataLayout.zero ∧
    (∃ row, sampleTable.i_cpu_layouts_[(1 : Int).toNat]? = some row ∧
      GetCpuInputLayout sampleTable 1 = Except.ok row) ∧
    GetCpuOutputLayout sampleTable 1 = Except.ok DataLayout.zero :=
  ⟨(get_cpu_layout_never_fails sampleTable sampleTable_loaded (-1)).2.1 (by decide),
   (get_cpu_layout_never_fails sampleTable sampleTable_loaded 2).2.1 (by decide),
   (get_cpu_layout_never_fails sampleTable sampleTable_loaded 1).1 (by decide),
   (get_cpu_layout_never_fails sampleTable sampleTable_loaded 1).2.2.2 (by decide)⟩

/-- C16: on every loaded table the privileged accessor ends without a fault for
every index: for an index that is negative or at least `InputNum()`,
`InputDataSize(index)` returns 0 and `GetMluInputLayout(index)` returns the
value-initialised `DataLayout`; for an index in range they return the stored
byte size and the stored native layout of that row. The same for
`OutputDataSize` / `GetMluOutputLayout` with `OutputNum()`. -/
theorem internal_accessor_never_fails (d : ModelLoaderPrivate) (hd : Loaded d) (i : Int) :
    ((i < 0 ∨ (InputNum d : Int) ≤ i) →
      InputDataSize d i = Except.ok 0 ∧ GetMluInputLayout d i = Except.ok DataLayout.zero) ∧
    ((0 ≤ i ∧ i < (InputNum d : Int)) →
      (∃ size, d.i_data_sizes_[i.toNat]? = some size ∧ InputDataSize d i = Except.ok size) ∧
      (∃ row, d.i_mlu_layouts_[i.toNat]? = some row ∧ GetMluInputLayout d i = Except.ok row)) ∧
    ((i < 0 ∨ (OutputNum d : Int) ≤ i) →
      OutputDataSize d i = Except.ok 0 ∧ GetMluOutputLayout d i = Except.ok DataLayout.zero) ∧
    ((0 ≤ i ∧ i < (OutputNum d : Int)) →
      (∃ size, d.o_data_sizes_[i.toNat]? = some size ∧ OutputDataSize d i = Except.ok size) ∧
      (∃ row, d.o_mlu_layouts_[i.toNat]? = some row ∧ GetMluOutputLayout d i = Except.ok row)) := by
  have inv := hd.inv
  refine ⟨?_, ?_, ?_, ?_⟩
  · intro h
    have hg := read_guard_out (InputNum d) inv.i_num_le i h
    unfold InputDataSize GetMluInputLayout
    rw [if_pos hg, if_pos hg]
    exact ⟨rfl, rfl⟩
  · rintro ⟨h0, h⟩
    have hg := read_guard_in (InputNum d) inv.i_num_le i h0 h
    unfold InputDataSize GetMluInputLayout
    rw [if_neg hg, if_neg hg]
    exact ⟨vectorAt_of_lt_getElem? _ _ (by have := inv.i_sizes; unfold InputNum at h; omega),
      vectorAt_of_lt_getElem? _ _ (by have := inv.i_mlu; unfold InputNum at h; omega)⟩
  · intro h
    have hg := read_guard_out (OutputNum d) inv.o_num_le i h
    unfold OutputDataSize GetMluOutputLayout
    rw [if_pos hg, if_pos hg]
    exact ⟨rfl, rfl⟩
  · rintro ⟨h0, h⟩
    have hg := read_guard_in (OutputNum d) inv.o_num_le i h0 h
    unfold OutputDataSize GetMluOutputLayout
    rw [if_neg hg, if_neg hg]
    exact ⟨vectorAt_of_lt_getElem? _ _ (by have := inv.o_sizes; unfold OutputNum at h; omega),
      vectorAt_of_lt_getElem? _ _ (by have := inv.o_mlu; unfold OutputNum at h; omega)⟩

theorem internal_accessor_never_fails_witness :
    (InputDataSize sampleTable (-1) = Except.ok 0 ∧
      GetMluInputLayout sampleTable (-1) = Except.ok DataLayout.zero) ∧
    (OutputDataSize sampleTable 1 = Except.ok 0 ∧
      GetMluOutputLayout sampleTable 1 = Except.ok DataLayout.zero) ∧
    ((∃ size, sampleTable.i_data_sizes_[(0 : Int).toNat]? = some size ∧
        InputDataSize sampleTable 0 = Except.ok size) ∧
      (∃ row, sampleTable.i_mlu_layouts_[(0 : Int).toNat]? = some row ∧
        GetMluInputLayout sampleTable 0 = Except.ok row)) :=
  ⟨(internal_accessor_never_fails sampleTable sampleTable_loaded (-1)).1 (by decide),
   (internal_accessor_never_fails sampleTable sampleTable_loaded 1).2.2.1 (by decide),
   (internal_accessor_never_fails sampleTable sampleTable_loaded 0).2.1 (by decide)⟩

/-! ## Construction from a path that does not open, and teardown -/

/-- C14: constructing from a path whose file cannot be opened fails with
`UNAVAILABLE` and the attempt makes no device-runtime call at all. -/
theorem ofPath_unopenable_file (rt : CnrtRuntime) :
    (ModelLoader.ofPath false rt).result =
      Except.error (Fault.exception ExceptionCode.UNAVAILABLE) ∧
    (ModelLoader.ofPath false rt).calls = [] := by
  constructor <;> rfl

/-- C15: whatever the two release calls return, the destructor calls
`cnrtDestroyFunction` once and then `cnrtUnloadModel` once, in that order and
nothing else, and ends without a fault; `cnrtUnloadModel` is called also when
`cnrtDestroyFunction` returned a failure status. -/
theorem destructor_releases_both (rt : CnrtRuntime) :
    (ModelLoader.destructor rt).calls =
      [(CnrtCall.cnrtDestroyFunction, rt.cnrtDestroyFunction),
       (CnrtCall.cnrtUnloadModel, rt.cnrtUnloadModel)] ∧
    (ModelLoader.destructor rt).result = Except.ok () := by
  constructor <;> rfl

/-! ## Per-sample sizes -/

theorem vectorAt_of_getElem? {α : Type} (v : List α) (i : Nat) (a : α) (h : v[i]? = some a) :
    vectorAt v i = Except.ok a := by
  unfold vectorAt
  rw [h]

/-- The quotient of a non-negative `int64_t` by any divisor is a value of
`int64_t`. -/
theorem tdiv_isInt64 (a b : Int) (h0 : 0 ≤ a) (ha : a ≤ 9223372036854775807) :
    isInt64 (Int.tdiv a b) := by
  unfold isInt64
  by_cases hb : 0 ≤ b
  · rw [Int.tdiv_eq_ediv h0 hb]
    have h1 : 0 ≤ a / b := Int.ediv_nonneg h0 hb
    have h2 : a / b ≤ a := Int.ediv_le_self b h0
    omega
  · have hnb : 0 ≤ -b := by omega
    have h := Int.tdiv_neg a (-b)
    rw [Int.neg_neg] at h
    rw [h, Int.tdiv_eq_ediv h0 hnb]
    have h1 : 0 ≤ a / (-b) := Int.ediv_nonneg h0 hnb
    have h2 : a / (-b) ≤ a := Int.ediv_le_self (-b) h0
    omega

theorem divInt64_ok (a b : Int) (hb : b ≠ 0) (hq : isInt64 (Int.tdiv a b)) :
    divInt64 a b = Except.ok (Int.tdiv a b) := by
  unfold divInt64
  rw [if_neg hb, if_pos hq]

/-- C11: on every loaded table, for every valid input index `i` whose `ShapeEx`
is non-empty with a batch dimension `b = ShapeEx[0]` other than zero,
`GetInputDataBatchAlignSize(i)` returns the byte size of input `i` divided by
`b`, the quotient of the `int64_t` division, so that `b` times the result is the
byte size when `b` divides it; the same for `GetOutputDataBatchAlignSize`. The
quotient is taken to be a value of `int64_t`, which it is for every
non-negative byte size. -/
theorem batch_align_size (d : ModelLoaderPrivate) (hd : Loaded d) (i : Int) (h0 : 0 ≤ i)
    (size b : Int) (rest : List Int) (hb : b ≠ 0) (hq : isInt64 (Int.tdiv size b)) :
    (i < (InputNum d : Int) → d.i_data_sizes_[i.toNat]? = some size →
      d.input_shapexs_[i.toNat]? = some (b :: rest) →
      GetInputDataBatchAlignSize d i = Except.ok (Int.tdiv size b) ∧
      (b ∣ size → b * Int.tdiv size b = size)) ∧
    (i < (OutputNum d : Int) → d.o_data_sizes_[i.toNat]? = some size →
      d.output_shapexs_[i.toNat]? = some (b :: rest) →
      GetOutputDataBatchAlignSize d i = Except.ok (Int.tdiv size b) ∧
      (b ∣ size → b * Int.tdiv size b = size)) := by
  have inv := hd.inv
  constructor
  · intro h hsize hshape
    have hg := read_guard_in (InputNum d) inv.i_num_le i h0 h
    refine ⟨?_, fun hdvd => Int.mul_tdiv_cancel' hdvd⟩
    unfold GetInputDataBatchAlignSize InputDataSize
    rw [if_neg hg, if_neg hg, vectorAt_of_getElem? _ _ _ hsize,
      vectorAt_of_getElem? _ _ _ hshape]
    simp only [vectorAt, List.getElem?_cons_zero]
    exact divInt64_ok size b hb hq
  · intro h hsize hshape
    have hg := read_guard_in (OutputNum d) inv.o_num_le i h0 h
    refine ⟨?_, fun hdvd => Int.mul_tdiv_cancel' hdvd⟩
    unfold GetOutputDataBatchAlignSize OutputDataSize
    rw [if_neg hg, if_neg hg, vectorAt_of_getElem? _ _ _ hsize,
      vectorAt_of_getElem? _ _ _ hshape]
    simp only [vectorAt, List.getElem?_cons_zero]
    exact divInt64_ok size b hb hq

theorem batch_align_size_witness :
    (GetInputDataBatchAlignSize sampleTable 0 = Except.ok (Int.tdiv 120 4) ∧
      ((4 : Int) ∣ 120 → 4 * Int.tdiv 120 4 = 120)) ∧
    Int.tdiv 120 4 = 30 :=
  ⟨(batch_align_size sampleTable sampleTable_loaded 0 (by decide) 120 4 [1, 5, 3]
      (by decide) (by decide)).1 (by decide) (by decide) (by decide), by decide⟩

/-! ## Shapes of any rank -/

/-- A reported shape of rank at most 4 gives the `Shape` of its values, as
`uint32_t`, followed by 1 in the remaining positions. -/
theorem shapeOfDims_rank_le_four (dims : List Int) (h : dims.length ≤ 4) :
    ∃ n h w c, dims.map toUInt32 ++ List.replicate (4 - dims.length) 1 = [n, h, w, c] ∧
      shapeOfDims dims = Except.ok ⟨n, h, w, c⟩ := by
  match dims, h with
  | [], _ => exact ⟨_, _, _, _, rfl, rfl⟩
  | [_], _ => exact ⟨_, _, _, _, rfl, rfl⟩
  | [_, _], _ => exact ⟨_, _, _, _, rfl, rfl⟩
  | [_, _, _], _ => exact ⟨_, _, _, _, rfl, rfl⟩
  | [_, _, _, _], _ => exact ⟨_, _, _, _, rfl, rfl⟩
  | _ :: _ :: _ :: _ :: _ :: _, h => simp at h

/-- A reported shape of rank above 4 makes the copy loop write `dim_value[4]`,
outside the 4-slot vector. -/
theorem shapeOfDims_rank_gt_four (dims : List Int) (h : 4 < dims.length) :
    shapeOfDims dims = Except.error Fault.outOfRange := by
  match dims, h with
  | [], h => simp at h
  | [_], h => simp at h
  | [_, _], h => simp at h
  | [_, _, _], h => simp at h
  | [_, _, _, _], h => simp at h
  | _ :: _ :: _ :: _ :: _ :: _, _ => rfl

/-- C17 at the failing input: a model whose input 0 has the rank-5 shape
`[4, 2, 3, 5, 6]`. The fifth pass of the copy loop writes `dim_value[4]`,
outside the 4-slot vector, and the load does not complete; shapes of rank
0, 2 and 4 give the padded `Shape`. -/
theorem rank_five_shape_overruns_dim_value :
    fillDimValue [6] 4 [4, 2, 3, 5] = Except.error Fault.outOfRange ∧
    shapeOfDims [4, 2, 3, 5, 6] = Except.error Fault.outOfRange ∧
    (LoadFunction rankFiveRuntime).result = Except.error Fault.outOfRange ∧
    (LoadFunction rankFiveRuntime).calls.getLast? =
      some (CnrtCall.cnrtGetInputDataShape 0, cnrtRet_t.CNRT_RET_SUCCESS) ∧
    shapeOfDims [] = Except.ok ⟨1, 1, 1, 1⟩ ∧
    shapeOfDims [4, 8] = Except.ok ⟨4, 8, 1, 1⟩ ∧
    shapeOfDims [4, 1, 5, 3] = Except.ok ⟨4, 1, 5, 3⟩ := by
  decide

/-! ## The call log of `LoadFunction` -/

theorem Traced.mem_calls_bind {α β : Type} (t : Traced α) (f : α → Traced β)
    (e : CnrtCall × cnrtRet_t) :
    e ∈ (Traced.bind t f).calls ↔
      e ∈ t.calls ∨ ∃ a, t.result = Except.ok a ∧ e ∈ (f a).calls := by
  unfold Traced.bind
  cases h : t.result with
  | ok a => simp [List.mem_append]
  | error x => simp

theorem Traced.call_calls (c : CnrtCall) (ret : cnrtRet_t) :
    (Traced.call c ret).calls = [(c, ret)] := rfl

theorem Traced.lift_calls {α : Type} (x : Except Fault α) : (Traced.lift x).calls = [] := rfl

theorem CHECK_CONDITION_calls (cond : Bool) : (CHECK_CONDITION cond).calls = [] := rfl

theorem CHECK_CNRT_RET_calls (ret : cnrtRet_t) : (CHECK_CNRT_RET ret).calls = [] := rfl

theorem shapeLoop_calls (call : Nat → CnrtCall) (query : Nat → cnrtRet_t × List Int)
    (l : List Nat) (e : CnrtCall × cnrtRet_t) (h : e ∈ (shapeLoop call query l).calls) :
    ∃ i, e.1 = call i := by
  induction l with
  | nil => simp [shapeLoop, Traced.pure_eq] at h
  | cons i rest ih =>
    simp only [shapeLoop, Traced.bind_eq, Traced.mem_calls_bind, Traced.call_calls,
      Traced.lift_calls, CHECK_CNRT_RET_calls, Traced.pure_eq, List.mem_singleton,
      List.not_mem_nil, false_or] at h
    rcases h with rfl | ⟨_, -, _, -, _, -, h⟩
    · exact ⟨i, rfl⟩
    · rcases h with h | ⟨_, -, h⟩
      · exact ih h
      · cases h

theorem shapeLoop_not_mem (call : Nat → CnrtCall) (query : Nat → cnrtRet_t × List Int)
    (l : List Nat) (c : CnrtCall) (s : cnrtRet_t) (hc : ∀ i, call i ≠ c) :
    (c, s) ∉ (shapeLoop call query l).calls := by
  intro h
  obtain ⟨i, hi⟩ := shapeLoop_calls call query l (c, s) h
  exact hc i hi.symm

/-- When the input type query is in the call log, every step before it ended
without a fault, and the status logged is the one the runtime answers. -/
theorem LoadFunction_at_input_types (rt : CnrtRuntime) (s : cnrtRet_t)
    (h : (CnrtCall.cnrtGetInputDataType, s) ∈ (LoadFunction rt).calls) :
    rt.cnrtCreateFunction = cnrtRet_t.CNRT_RET_SUCCESS ∧
    rt.cnrtExtractFunction = cnrtRet_t.CNRT_RET_SUCCESS ∧
    rt.cnrtQueryModelParallelism.1 = cnrtRet_t.CNRT_RET_SUCCESS ∧
    rt.cnrtGetInputDataSize.1 = cnrtRet_t.CNRT_RET_SUCCESS ∧
    rt.cnrtGetOutputDataSize.1 = cnrtRet_t.CNRT_RET_SUCCESS ∧
    (∃ inputs, (shapeLoop CnrtCall.cnrtGetInputDataShape rt.cnrtGetInputDataShape
      (List.range rt.cnrtGetInputDataSize.2.length)).result = Except.ok inputs) ∧
    (∃ outputs, (shapeLoop CnrtCall.cnrtGetOutputDataShape rt.cnrtGetOutputDataShape
      (List.range rt.cnrtGetOutputDataSize.2.length)).result = Except.ok outputs) ∧
    s = rt.cnrtGetInputDataType.1 := by
  have hin := shapeLoop_not_mem CnrtCall.cnrtGetInputDataShape rt.cnrtGetInputDataShape
    (List.range rt.cnrtGetInputDataSize.2.length) CnrtCall.cnrtGetInputDataType s
    (fun _ => by simp)
  have hout := shapeLoop_not_mem CnrtCall.cnrtGetOutputDataShape rt.cnrtGetOutputDataShape
    (List.range rt.cnrtGetOutputDataSize.2.length) CnrtCall.cnrtGetInputDataType s
    (fun _ => by simp)
  simp only [LoadFunction, Traced.bind_eq, Traced.mem_calls_bind, Traced.call_calls,
    Traced.lift_calls, CHECK_CNRT_RET_calls, CHECK_CONDITION_calls, Traced.pure_eq,
    List.mem_singleton, List.not_mem_nil, false_or, Traced.call_result,
    CHECK_CNRT_RET_result_ok, CHECK_CONDITION_result_ok, Traced.lift_result,
    Prod.mk.injEq, false_and, and_false, exists_const, exists_false, or_false,
    reduceCtorEq, true_and, hin, hout] at h
  obtain ⟨h1, h2, h3, h4, h5, inputs, h6, outputs, h7, h8⟩ := h
  exact ⟨h1, h2, h3, h4, h5, ⟨inputs, h6⟩, ⟨outputs, h7⟩, h8⟩

/-- When the output type query is in the call log, every step before it ended
without a fault, and the status logged is the one the runtime answers. -/
theorem LoadFunction_at_output_types (rt : CnrtRuntime) (s : cnrtRet_t)
    (h : (CnrtCall.cnrtGetOutputDataType, s) ∈ (LoadFunction rt).calls) :
    rt.cnrtCreateFunction = cnrtRet_t.CNRT_RET_SUCCESS ∧
    rt.cnrtExtractFunction = cnrtRet_t.CNRT_RET_SUCCESS ∧
    rt.cnrtQueryModelParallelism.1 = cnrtRet_t.CNRT_RET_SUCCESS ∧
    rt.cnrtGetInputDataSize.1 = cnrtRet_t.CNRT_RET_SUCCESS ∧
    rt.cnrtGetOutputDataSize.1 = cnrtRet_t.CNRT_RET_SUCCESS ∧
    (∃ inputs, (shapeLoop CnrtCall.cnrtGetInputDataShape rt.cnrtGetInputDataShape
      (List.range rt.cnrtGetInputDataSize.2.length)).result = Except.ok inputs) ∧
    (∃ outputs, (shapeLoop CnrtCall.cnrtGetOutputDataShape rt.cnrtGetOutputDataShape
      (List.range rt.cnrtGetOutputDataSize.2.length)).result = Except.ok outputs) ∧
    rt.cnrtGetInputDataType.1 = cnrtRet_t.CNRT_RET_SUCCESS ∧
    rt.cnrtGetInputDataType.2.length = rt.cnrtGetInputDataSize.2.length ∧
    (∃ i_mlu, mluLayoutLoop rt.cnrtGetInputDataType.2
      (List.range (toUInt32 (rt.cnrtGetInputDataSize.2.length : Int)))
      (List.replicate (toUInt32 (rt.cnrtGetInputDataSize.2.length : Int)) DataLayout.zero)
        = Except.ok i_mlu) ∧
    s = rt.cnrtGetOutputDataType.1 := by
  have hin := shapeLoop_not_mem CnrtCall.cnrtGetInputDataShape rt.cnrtGetInputDataShape
    (List.range rt.cnrtGetInputDataSize.2.length) CnrtCall.cnrtGetOutputDataType s
    (fun _ => by simp)
  have hout := shapeLoop_not_mem CnrtCall.cnrtGetOutputDataShape rt.cnrtGetOutputDataShape
    (List.range rt.cnrtGetOutputDataSize.2.length) CnrtCall.cnrtGetOutputDataType s
    (fun _ => by simp)
  simp only [LoadFunction, Traced.bind_eq, Traced.mem_calls_bind, Traced.call_calls,
    Traced.lift_calls, CHECK_CNRT_RET_calls, CHECK_CONDITION_calls, Traced.pure_eq,
    List.mem_singleton, List.not_mem_nil, false_or, Traced.call_result,
    CHECK_CNRT_RET_result_ok, CHECK_CONDITION_result_ok, Traced.lift_result,
    Prod.mk.injEq, false_and, and_false, exists_const, exists_false, or_false,
    reduceCtorEq, true_and, decide_eq_true_eq, hin, hout] at h
  obtain ⟨h1, h2, h3, h4, h5, inputs, h6, outputs, h7, h8, h9, i_mlu, h10, h11⟩ := h
  exact ⟨h1, h2, h3, h4, h5, ⟨inputs, h6⟩, ⟨outputs, h7⟩, h8, h9, ⟨i_mlu, h10⟩, h11⟩

/-- The result of a load whose steps up to the input type query ended without
a fault, when the input counts of the two queries differ. -/
theorem LoadFunction_input_mismatch (rt : CnrtRuntime)
    (h : (CnrtCall.cnrtGetInputDataType, cnrtRet_t.CNRT_RET_SUCCESS) ∈ (LoadFunction rt).calls)
    (hne : rt.cnrtGetInputDataType.2.length ≠ rt.cnrtGetInputDataSize.2.length) :
    (LoadFunction rt).result = Except.error (Fault.exception ExceptionCode.INTERNAL) := by
  obtain ⟨h1, h2, h3, h4, h5, ⟨inputs, h6⟩, ⟨outputs, h7⟩, h8⟩ :=
    LoadFunction_at_input_types rt _ h
  simp [LoadFunction, Traced.bind_eq, Traced.bind, Traced.call, CHECK_CNRT_RET,
    CHECK_CONDITION, Traced.lift, h1, h2, h3, h4, h5, h6, h7, ← h8, hne, THROW_EXCEPTION]

/-- The result of a load whose steps up to the input type query ended without
a fault and whose input counts agree, when the loop over the input element
types ends with a fault. -/
theorem LoadFunction_input_types_fault (rt : CnrtRuntime) (x : Fault)
    (h : (CnrtCall.cnrtGetInputDataType, cnrtRet_t.CNRT_RET_SUCCESS) ∈ (LoadFunction rt).calls)
    (heq : rt.cnrtGetInputDataType.2.length = rt.cnrtGetInputDataSize.2.length)
    (hloop : mluLayoutLoop rt.cnrtGetInputDataType.2
      (List.range (toUInt32 (rt.cnrtGetInputDataSize.2.length : Int)))
      (List.replicate (toUInt32 (rt.cnrtGetInputDataSize.2.length : Int)) DataLayout.zero)
        = Except.error x) :
    (LoadFunction rt).result = Except.error x := by
  obtain ⟨h1, h2, h3, h4, h5, ⟨inputs, h6⟩, ⟨outputs, h7⟩, h8⟩ :=
    LoadFunction_at_input_types rt _ h
  simp [LoadFunction, Traced.bind_eq, Traced.bind, Traced.call, CHECK_CNRT_RET,
    CHECK_CONDITION, Traced.lift, h1, h2, h3, h4, h5, h6, h7, ← h8, heq, hloop]

/-- The result of a load whose steps up to the output type query ended without
a fault, when the output counts of the two queries differ. -/
theorem LoadFunction_output_mismatch (rt : CnrtRuntime)
    (h : (CnrtCall.cnrtGetOutputDataType, cnrtRet_t.CNRT_RET_SUCCESS) ∈ (LoadFunction rt).calls)
    (hne : rt.cnrtGetOutputDataType.2.length ≠ rt.cnrtGetOutputDataSize.2.length) :
    (LoadFunction rt).result = Except.error (Fault.exception ExceptionCode.INTERNAL) := by
  obtain ⟨h1, h2, h3, h4, h5, ⟨inputs, h6⟩, ⟨outputs, h7⟩, h8, h9, ⟨i_mlu, h10⟩, h11⟩ :=
    LoadFunction_at_output_types rt _ h
  simp [LoadFunction, Traced.bind_eq, Traced.bind, Traced.call, CHECK_CNRT_RET,
    CHECK_CONDITION, Traced.lift, h1, h2, h3, h4, h5, h6, h7, h8, h9, h10, ← h11, hne,
    THROW_EXCEPTION]

/-- The result of a load whose steps up to the output type query ended without
a fault and whose output counts agree, when the loop over the output element
types ends with a fault. -/
theorem LoadFunction_output_types_fault (rt : CnrtRuntime) (x : Fault)
    (h : (CnrtCall.cnrtGetOutputDataType, cnrtRet_t.CNRT_RET_SUCCESS) ∈ (LoadFunction rt).calls)
    (heq : rt.cnrtGetOutputDataType.2.length = rt.cnrtGetOutputDataSize.2.length)
    (hloop : mluLayoutLoop rt.cnrtGetOutputDataType.2
      (List.range (toUInt32 (rt.cnrtGetOutputDataSize.2.length : Int)))
      (List.replicate (toUInt32 (rt.cnrtGetOutputDataSize.2.length : Int)) DataLayout.zero)
        = Except.error x) :
    (LoadFunction rt).result = Except.error x := by
  obtain ⟨h1, h2, h3, h4, h5, ⟨inputs, h6⟩, ⟨outputs, h7⟩, h8, h9, ⟨i_mlu, h10⟩, h11⟩ :=
    LoadFunction_at_output_types rt _ h
  simp [LoadFunction, Traced.bind_eq, Traced.bind, Traced.call, CHECK_CNRT_RET,
    CHECK_CONDITION, Traced.lift, h1, h2, h3, h4, h5, h6, h7, h8, h9, h10, ← h11, heq, hloop]

/-! ## The counts of a loaded table -/

/-- C12: a load that ends without a fault has an input type query whose count
equals the count of the input size query, `InputNum()` equals both, and the
byte-size, `Shape`, `ShapeEx`, native-layout and host-layout arrays of the
inputs all have `InputNum()` rows; once the input type query has been made and
has succeeded, a count that differs from the one of the size query ends the
load with `INTERNAL`. Symmetrically for outputs with `OutputNum()`. -/
theorem load_count_cross_check (rt : CnrtRuntime) :
    (rt.intCounts → ∀ d, (LoadFunction rt).result = Except.ok d →
      (rt.cnrtGetInputDataType.2.length = rt.cnrtGetInputDataSize.2.length ∧
        InputNum d = rt.cnrtGetInputDataSize.2.length ∧
        d.i_data_sizes_.length = InputNum d ∧ d.input_shapes_.length = InputNum d ∧
        d.input_shapexs_.length = InputNum d ∧ d.i_mlu_layouts_.length = InputNum d ∧
        d.i_cpu_layouts_.length = InputNum d) ∧
      (rt.cnrtGetOutputDataType.2.length = rt.cnrtGetOutputDataSize.2.length ∧
        OutputNum d = rt.cnrtGetOutputDataSize.2.length ∧
        d.o_data_sizes_.length = OutputNum d ∧ d.output_shapes_.length = OutputNum d ∧
        d.output_shapexs_.length = OutputNum d ∧ d.o_mlu_layouts_.length = OutputNum d ∧
        d.o_cpu_layouts_.length = OutputNum d)) ∧
    ((CnrtCall.cnrtGetInputDataType, cnrtRet_t.CNRT_RET_SUCCESS) ∈ (LoadFunction rt).calls →
      rt.cnrtGetInputDataType.2.length ≠ rt.cnrtGetInputDataSize.2.length →
      (LoadFunction rt).result = Except.error (Fault.exception ExceptionCode.INTERNAL)) ∧
    ((CnrtCall.cnrtGetOutputDataType, cnrtRet_t.CNRT_RET_SUCCESS) ∈ (LoadFunction rt).calls →
      rt.cnrtGetOutputDataType.2.length ≠ rt.cnrtGetOutputDataSize.2.length →
      (LoadFunction rt).result = Except.error (Fault.exception ExceptionCode.INTERNAL)) := by
  refine ⟨?_, LoadFunction_input_mismatch rt, LoadFunction_output_mismatch rt⟩
  intro hrt d h
  have inv := LoadFunction_inv rt d hrt h
  obtain ⟨inputs, outputs, i_mlu, o_mlu, -, -, hci, hco, -, -, hd⟩ := LoadFunction_ok rt d h
  have hi : InputNum d = rt.cnrtGetInputDataSize.2.length := by
    rw [hd]; exact toUInt32_natCast _ hrt.1
  have ho : OutputNum d = rt.cnrtGetOutputDataSize.2.length := by
    rw [hd]; exact toUInt32_natCast _ hrt.2
  exact ⟨⟨hci, hi, inv.i_sizes, inv.i_shapes, inv.i_shapexs, inv.i_mlu, inv.i_cpu⟩,
    ⟨hco, ho, inv.o_sizes, inv.o_shapes, inv.o_shapexs, inv.o_mlu, inv.o_cpu⟩⟩

theorem load_count_cross_check_witness :
    (sampleRuntime.cnrtGetInputDataType.2.length = sampleRuntime.cnrtGetInputDataSize.2.length ∧
      InputNum sampleTable = sampleRuntime.cnrtGetInputDataSize.2.length ∧
      sampleTable.i_data_sizes_.length = InputNum sampleTable ∧
      sampleTable.input_shapes_.length = InputNum sampleTable ∧
      sampleTable.input_shapexs_.length = InputNum sampleTable ∧
      sampleTable.i_mlu_layouts_.length = InputNum sampleTable ∧
      sampleTable.i_cpu_layouts_.length = InputNum sampleTable) ∧
    (LoadFunction countMismatchRuntime).result =
      Except.error (Fault.exception ExceptionCode.INTERNAL) :=
  ⟨((load_count_cross_check sampleRuntime).1 (by decide) sampleTable (by decide)).1,
   (load_count_cross_check countMismatchRuntime).2.1 (by decide) (by decide)⟩

/-! ## Native layouts -/

theorem vectorAt_ok {α : Type} (v : List α) (i : Nat) (a : α)
    (h : vectorAt v i = Except.ok a) : v[i]? = some a := by
  unfold vectorAt at h
  split at h
  · rename_i b hb
    cases h; exact hb
  · cases h

theorem vectorSet_ok {α : Type} (v w : List α) (i : Nat) (a : α)
    (h : vectorSet v i a = Except.ok w) : i < v.length ∧ w = v.set i a := by
  unfold vectorSet at h
  split at h
  · rename_i hlt
    cases h; exact ⟨hlt, rfl⟩
  · cases h

/-- What one pass of the loop over the element types does when it ends without
a fault. -/
theorem mluLayoutLoop_cons_ok (dtypes : List cnrtDataType) (i : Nat) (rest : List Nat)
    (v w : List DataLayout) (h : mluLayoutLoop dtypes (i :: rest) v = Except.ok w) :
    ∃ t dt, dtypes[i]? = some t ∧ t.CastDataType = Except.ok dt ∧ i < v.length ∧
      mluLayoutLoop dtypes rest (v.set i ⟨dt, DimOrder.NHWC⟩) = Except.ok w := by
  simp only [mluLayoutLoop] at h
  split at h
  · cases h
  · rename_i t ht
    split at h
    · cases h
    · rename_i dt hdt
      split at h
      · cases h
      · rename_i v1 hv1
        obtain ⟨hlt, rfl⟩ := vectorSet_ok _ _ _ _ hv1
        exact ⟨t, dt, vectorAt_ok _ _ _ ht, hdt, hlt, h⟩

theorem mluLayoutLoop_frame (dtypes : List cnrtDataType) (l : List Nat)
    (v w : List DataLayout) (h : mluLayoutLoop dtypes l v = Except.ok w) (j : Nat)
    (hj : j ∉ l) : w[j]? = v[j]? := by
  induction l generalizing v with
  | nil =>
    simp only [mluLayoutLoop] at h
    cases h; rfl
  | cons i rest ih =>
    obtain ⟨t, dt, -, -, -, hrest⟩ := mluLayoutLoop_cons_ok dtypes i rest v w h
    have hne : i ≠ j := fun hij => hj (hij ▸ List.mem_cons_self _ _)
    rw [ih _ hrest (fun hm => hj (List.mem_cons_of_mem _ hm)), List.getElem?_set_ne hne]

theorem mluLayoutLoop_content (dtypes : List cnrtDataType) (l : List Nat)
    (v w : List DataLayout) (h : mluLayoutLoop dtypes l v = Except.ok w) (j : Nat)
    (hj : j ∈ l) :
    ∃ t dt, dtypes[j]? = some t ∧ t.CastDataType = Except.ok dt ∧
      w[j]? = some ⟨dt, DimOrder.NHWC⟩ := by
  induction l generalizing v with
  | nil => cases hj
  | cons i rest ih =>
    obtain ⟨t, dt, ht, hdt, hlt, hrest⟩ := mluLayoutLoop_cons_ok dtypes i rest v w h
    by_cases hm : j ∈ rest
    · exact ih _ hrest hm
    · have hji : j = i := by
        rcases List.mem_cons.1 hj with h1 | h1
        · exact h1
        · exact absurd h1 hm
      subst hji
      refine ⟨t, dt, ht, hdt, ?_⟩
      rw [mluLayoutLoop_frame dtypes rest _ w hrest j hm, List.getElem?_set_self hlt]

theorem CastDataType_not_supported (t : cnrtDataType) (h : t ∉ cnrtDataType.supportedTypes) :
    t.CastDataType = Except.error (Fault.exception ExceptionCode.UNSUPPORTED) := by
  cases t
  all_goals first
    | rfl
    | (simp [cnrtDataType.supportedTypes] at h)

/-- The loop over the element types ends with `UNSUPPORTED` when one of the
indices it visits, all of them rows of both arrays, has an unsupported type. -/
theorem mluLayoutLoop_unsupported (dtypes : List cnrtDataType) (l : List Nat)
    (v : List DataLayout) (hl : ∀ i ∈ l, i < dtypes.length ∧ i < v.length)
    (hbad : ∃ i ∈ l, ∃ t, dtypes[i]? = some t ∧ t ∉ cnrtDataType.supportedTypes) :
    mluLayoutLoop dtypes l v = Except.error (Fault.exception ExceptionCode.UNSUPPORTED) := by
  induction l generalizing v with
  | nil =>
    obtain ⟨i, hi, -⟩ := hbad
    cases hi
  | cons i rest ih =>
    obtain ⟨hid, hiv⟩ := hl i (List.mem_cons_self _ _)
    simp only [mluLayoutLoop, vectorAt_of_lt dtypes i hid]
    by_cases hsup : dtypes.get ⟨i, hid⟩ ∈ cnrtDataType.supportedTypes
    · have hrest : ∃ k ∈ rest, ∃ t, dtypes[k]? = some t ∧ t ∉ cnrtDataType.supportedTypes := by
        obtain ⟨k, hk, t, ht, hnot⟩ := hbad
        rcases List.mem_cons.1 hk with rfl | hk1
        · rw [List.getElem?_eq_getElem hid] at ht
          cases ht
          exact absurd hsup hnot
        · exact ⟨k, hk1, t, ht, hnot⟩
      cases hcast : (dtypes.get ⟨i, hid⟩).CastDataType with
      | error x =>
        exfalso
        revert hcast hsup
        cases dtypes.get ⟨i, hid⟩ <;>
          simp [cnrtDataType.CastDataType, cnrtDataType.supportedTypes]
      | ok dt =>
        simp only [vectorSet, hiv, if_true]
        refine ih _ (fun k hk => ?_) hrest
        have := hl k (List.mem_cons_of_mem _ hk)
        exact ⟨this.1, by simpa using this.2⟩
    · simp only [CastDataType_not_supported _ hsup]

/-- A setter call leaves every member of the table but its host-layout array
as it was, and that array is either untouched or has row `data_index`
overwritten with a FLOAT32 layout. -/
theorem SetCpuInputLayout_state (logOn : Bool) (d : ModelLoaderPrivate)
    (layout : DataLayout) (i : Int) :
    ∃ v, (SetCpuInputLayout logOn d layout i).1 = { d with i_cpu_layouts_ := v } ∧
      (v = d.i_cpu_layouts_ ∨
        (layout.dtype = DataType.FLOAT32 ∧ v = d.i_cpu_layouts_.set i.toNat layout)) := by
  unfold SetCpuInputLayout
  split
  · exact ⟨_, rfl, Or.inl rfl⟩
  · split
    · exact ⟨_, rfl, Or.inl rfl⟩
    · rename_i hfloat
      split
      · exact ⟨_, rfl, Or.inl rfl⟩
      · rename_i v hv
        refine ⟨v, rfl, Or.inr ⟨?_, (vectorSet_ok _ _ _ _ hv).2⟩⟩
        unfold ONLY_SUPPORT_FLOAT32 at hfloat
        by_contra hne
        rw [if_pos hne] at hfloat
        cases hfloat

theorem SetCpuOutputLayout_state (logOn : Bool) (d : ModelLoaderPrivate)
    (layout : DataLayout) (i : Int) :
    ∃ v, (SetCpuOutputLayout logOn d layout i).1 = { d with o_cpu_layouts_ := v } ∧
      (v = d.o_cpu_layouts_ ∨
        (layout.dtype = DataType.FLOAT32 ∧ v = d.o_cpu_layouts_.set i.toNat layout)) := by
  unfold SetCpuOutputLayout
  split
  · exact ⟨_, rfl, Or.inl rfl⟩
  · split
    · exact ⟨_, rfl, Or.inl rfl⟩
    · rename_i hfloat
      split
      · exact ⟨_, rfl, Or.inl rfl⟩
      · rename_i v hv
        refine ⟨v, rfl, Or.inr ⟨?_, (vectorSet_ok _ _ _ _ hv).2⟩⟩
        unfold ONLY_SUPPORT_FLOAT32 at hfloat
        by_contra hne
        rw [if_pos hne] at hfloat
        cases hfloat

theorem applySetter_native (d : ModelLoaderPrivate) (c : SetterCall) :
    (applySetter d c).i_mlu_layouts_ = d.i_mlu_layouts_ ∧
    (applySetter d c).o_mlu_layouts_ = d.o_mlu_layouts_ ∧
    (applySetter d c).i_num_ = d.i_num_ ∧ (applySetter d c).o_num_ = d.o_num_ := by
  cases c with
  | input logOn layout i =>
    obtain ⟨v, hv, -⟩ := SetCpuInputLayout_state logOn d layout i
    simp only [applySetter, hv, and_self]
  | output logOn layout i =>
    obtain ⟨v, hv, -⟩ := SetCpuOutputLayout_state logOn d layout i
    simp only [applySetter, hv, and_self]

theorem applySetters_native (d : ModelLoaderPrivate) (calls : List SetterCall) :
    (applySetters d calls).i_mlu_layouts_ = d.i_mlu_layouts_ ∧
    (applySetters d calls).o_mlu_layouts_ = d.o_mlu_layouts_ ∧
    (applySetters d calls).i_num_ = d.i_num_ ∧ (applySetters d calls).o_num_ = d.o_num_ := by
  induction calls generalizing d with
  | nil => exact ⟨rfl, rfl, rfl, rfl⟩
  | cons c rest ih =>
    obtain ⟨h1, h2, h3, h4⟩ := ih (applySetter d c)
    obtain ⟨g1, g2, g3, g4⟩ := applySetter_native d c
    exact ⟨h1.trans g1, h2.trans g2, h3.trans g3, h4.trans g4⟩

theorem GetMluLayout_applySetters (d : ModelLoaderPrivate) (calls : List SetterCall) (i : Int) :
    GetMluInputLayout (applySetters d calls) i = GetMluInputLayout d i ∧
    GetMluOutputLayout (applySetters d calls) i = GetMluOutputLayout d i := by
  obtain ⟨h1, h2, h3, h4⟩ := applySetters_native d calls
  simp only [GetMluInputLayout, GetMluOutputLayout, InputNum, OutputNum, h1, h2, h3, h4,
    and_self]

theorem Loaded.applySetters {d : ModelLoaderPrivate} (h : Loaded d) (calls : List SetterCall) :
    Loaded (applySetters d calls) := by
  induction calls generalizing d with
  | nil => exact h
  | cons c rest ih =>
    apply ih
    cases c with
    | input logOn layout i => exact Loaded.setInput logOn d layout i h
    | output logOn layout i => exact Loaded.setOutput logOn d layout i h

theorem exists_unsupported_index (dtypes : List cnrtDataType)
    (h : ∃ t ∈ dtypes, t ∉ cnrtDataType.supportedTypes) :
    ∃ k ∈ List.range dtypes.length, ∃ t, dtypes[k]? = some t ∧
      t ∉ cnrtDataType.supportedTypes := by
  obtain ⟨t, ht, hnot⟩ := h
  obtain ⟨k, hk, hget⟩ := List.getElem_of_mem ht
  exact ⟨k, List.mem_range.2 hk, t, by rw [List.getElem?_eq_getElem hk, hget], hnot⟩

/-- C19: after every load that ends without a fault, for every valid input
index `i` the native layout `GetMluInputLayout(i)` is `{CastDataType(element
type the device reported for input i), NHWC}`, right after the load and after
any sequence of host-layout setter calls; symmetrically for outputs. When the
input (output) element types have been reported, with the count of the size
query, and one of them is unsupported, the load fails with `UNSUPPORTED`. -/
theorem native_layout_after_load (rt : CnrtRuntime) (hrt : rt.intCounts) :
    (∀ d, (LoadFunction rt).result = Except.ok d → ∀ i : Int, 0 ≤ i →
      (i < (InputNum d : Int) →
        ∃ t dt, rt.cnrtGetInputDataType.2[i.toNat]? = some t ∧
          t.CastDataType = Except.ok dt ∧
          ∀ calls, GetMluInputLayout (applySetters d calls) i =
            Except.ok ⟨dt, DimOrder.NHWC⟩) ∧
      (i < (OutputNum d : Int) →
        ∃ t dt, rt.cnrtGetOutputDataType.2[i.toNat]? = some t ∧
          t.CastDataType = Except.ok dt ∧
          ∀ calls, GetMluOutputLayout (applySetters d calls) i =
            Except.ok ⟨dt, DimOrder.NHWC⟩)) ∧
    ((CnrtCall.cnrtGetInputDataType, cnrtRet_t.CNRT_RET_SUCCESS) ∈ (LoadFunction rt).calls →
      rt.cnrtGetInputDataType.2.length = rt.cnrtGetInputDataSize.2.length →
      (∃ t ∈ rt.cnrtGetInputDataType.2, t ∉ cnrtDataType.supportedTypes) →
      (LoadFunction rt).result = Except.error (Fault.exception ExceptionCode.UNSUPPORTED)) ∧
    ((CnrtCall.cnrtGetOutputDataType, cnrtRet_t.CNRT_RET_SUCCESS) ∈ (LoadFunction rt).calls →
      rt.cnrtGetOutputDataType.2.length = rt.cnrtGetOutputDataSize.2.length →
      (∃ t ∈ rt.cnrtGetOutputDataType.2, t ∉ cnrtDataType.supportedTypes) →
      (LoadFunction rt).result = Except.error (Fault.exception ExceptionCode.UNSUPPORTED)) := by
  have hi := toUInt32_natCast _ hrt.1
  have ho := toUInt32_natCast _ hrt.2
  refine ⟨?_, ?_, ?_⟩
  · intro d h i h0
    have inv := LoadFunction_inv rt d hrt h
    obtain ⟨inputs, outputs, i_mlu, o_mlu, -, -, -, -, him, hom, hd⟩ := LoadFunction_ok rt d h
    rw [hi] at him
    rw [ho] at hom
    have hin : d.i_num_ = rt.cnrtGetInputDataSize.2.length := by rw [hd]; exact hi
    have hon : d.o_num_ = rt.cnrtGetOutputDataSize.2.length := by rw [hd]; exact ho
    have himl : d.i_mlu_layouts_ = i_mlu := by rw [hd]
    have homl : d.o_mlu_layouts_ = o_mlu := by rw [hd]
    constructor
    · intro hlt
      have hmem : i.toNat ∈ List.range rt.cnrtGetInputDataSize.2.length :=
        List.mem_range.2 (by unfold InputNum at hlt; omega)
      obtain ⟨t, dt, ht, hdt, hrow⟩ := mluLayoutLoop_content _ _ _ _ him _ hmem
      refine ⟨t, dt, ht, hdt, fun calls => ?_⟩
      rw [(GetMluLayout_applySetters d calls i).1]
      unfold GetMluInputLayout
      rw [if_neg (read_guard_in (InputNum d) inv.i_num_le i h0 hlt), himl]
      exact vectorAt_of_getElem? _ _ _ hrow
    · intro hlt
      have hmem : i.toNat ∈ List.range rt.cnrtGetOutputDataSize.2.length :=
        List.mem_range.2 (by unfold OutputNum at hlt; omega)
      obtain ⟨t, dt, ht, hdt, hrow⟩ := mluLayoutLoop_content _ _ _ _ hom _ hmem
      refine ⟨t, dt, ht, hdt, fun calls => ?_⟩
      rw [(GetMluLayout_applySetters d calls i).2]
      unfold GetMluOutputLayout
      rw [if_neg (read_guard_in (OutputNum d) inv.o_num_le i h0 hlt), homl]
      exact vectorAt_of_getElem? _ _ _ hrow
  · intro h heq hbad
    refine LoadFunction_input_types_fault rt _ h heq ?_
    rw [hi, ← heq]
    refine mluLayoutLoop_unsupported _ _ _ (fun k hk => ?_) (exists_unsupported_index _ hbad)
    have := List.mem_range.1 hk
    exact ⟨this, by simpa using this⟩
  · intro h heq hbad
    refine LoadFunction_output_types_fault rt _ h heq ?_
    rw [ho, ← heq]
    refine mluLayoutLoop_unsupported _ _ _ (fun k hk => ?_) (exists_unsupported_index _ hbad)
    have := List.mem_range.1 hk
    exact ⟨this, by simpa using this⟩

theorem native_layout_after_load_witness :
    (∃ t dt, sampleRuntime.cnrtGetInputDataType.2[(1 : Int).toNat]? = some t ∧
      t.CastDataType = Except.ok dt ∧
      ∀ calls, GetMluInputLayout (applySetters sampleTable calls) 1 =
        Except.ok ⟨dt, DimOrder.NHWC⟩) ∧
    (LoadFunction unsupportedTypeRuntime).result =
      Except.error (Fault.exception ExceptionCode.UNSUPPORTED) :=
  ⟨((native_layout_after_load sampleRuntime (by decide)).1 sampleTable (by decide) 1
      (by decide)).1 (by decide),
   (native_layout_after_load unsupportedTypeRuntime (by decide)).2.1 (by decide) (by decide)
      ⟨cnrtDataType.other 33, by decide, by decide⟩⟩

/-! ## Frame of the setters -/

/-- A setter call that ends without a fault had an index in range and a
FLOAT32 layout. -/
theorem SetCpuInputLayout_ok_cases (logOn : Bool) (d : ModelLoaderPrivate)
    (layout : DataLayout) (i : Int) (hi : isInt32 i)
    (h : (SetCpuInputLayout logOn d layout i).2 = Except.ok ()) :
    0 ≤ i ∧ i < (InputNum d : Int) ∧ layout.dtype = DataType.FLOAT32 := by
  by_cases hr : i < 0 ∨ (InputNum d : Int) ≤ i
  · rw [SetCpuInputLayout_bad_index logOn d layout i hi hr] at h
    cases h
  · have h0 : 0 ≤ i := by omega
    have hlt : i < (InputNum d : Int) := by omega
    refine ⟨h0, hlt, ?_⟩
    by_contra hl
    rw [SetCpuInputLayout_not_float logOn d layout i hi h0 hlt hl] at h
    cases h

theorem SetCpuOutputLayout_ok_cases (logOn : Bool) (d : ModelLoaderPrivate)
    (layout : DataLayout) (i : Int) (hi : isInt32 i)
    (h : (SetCpuOutputLayout logOn d layout i).2 = Except.ok ()) :
    0 ≤ i ∧ i < (OutputNum d : Int) ∧ layout.dtype = DataType.FLOAT32 := by
  by_cases hr : i < 0 ∨ (OutputNum d : Int) ≤ i
  · rw [SetCpuOutputLayout_bad_index logOn d layout i hi hr] at h
    cases h
  · have h0 : 0 ≤ i := by omega
    have hlt : i < (OutputNum d : Int) := by omega
    refine ⟨h0, hlt, ?_⟩
    by_contra hl
    rw [SetCpuOutputLayout_not_float logOn d layout i hi h0 hlt hl] at h
    cases h

/-- C18: on every loaded table a successful `SetCpuInputLayout(layout, i)`
changes only host-layout row `i` of the inputs: the table after the call is the
table before it with that one row overwritten, so every other input row, every
output row, the native layouts, byte sizes, `Shape`s, `ShapeEx`s, both counts
and the parallelism are as before. Repeating the call gives the same table
again, and of two successive successful writes to the same index the table is
the one the last write alone gives. The same for `SetCpuOutputLayout`. -/
theorem set_cpu_layout_frame (logOn : Bool) (d : ModelLoaderPrivate) (hd : Loaded d)
    (layout : DataLayout) (i : Int) (hi : isInt32 i) :
    (∀ d1, SetCpuInputLayout logOn d layout i = (d1, Except.ok ()) →
      d1 = { d with i_cpu_layouts_ := d.i_cpu_layouts_.set i.toNat layout } ∧
      (∀ j, j ≠ i.toNat → d1.i_cpu_layouts_[j]? = d.i_cpu_layouts_[j]?) ∧
      SetCpuInputLayout logOn d1 layout i = (d1, Except.ok ()) ∧
      (∀ layout2 d2, SetCpuInputLayout logOn d1 layout2 i = (d2, Except.ok ()) →
        SetCpuInputLayout logOn d layout2 i = (d2, Except.ok ()))) ∧
    (∀ d1, SetCpuOutputLayout logOn d layout i = (d1, Except.ok ()) →
      d1 = { d with o_cpu_layouts_ := d.o_cpu_layouts_.set i.toNat layout } ∧
      (∀ j, j ≠ i.toNat → d1.o_cpu_layouts_[j]? = d.o_cpu_layouts_[j]?) ∧
      SetCpuOutputLayout logOn d1 layout i = (d1, Except.ok ()) ∧
      (∀ layout2 d2, SetCpuOutputLayout logOn d1 layout2 i = (d2, Except.ok ()) →
        SetCpuOutputLayout logOn d layout2 i = (d2, Except.ok ()))) := by
  have inv := hd.inv
  constructor
  · intro d1 h
    have hok : (SetCpuInputLayout logOn d layout i).2 = Except.ok () := by rw [h]
    obtain ⟨h0, hlt, hl⟩ := SetCpuInputLayout_ok_cases logOn d layout i hi hok
    have hset := SetCpuInputLayout_valid logOn d layout i hi h0 hlt inv.i_cpu hl
    rw [hset] at h
    obtain ⟨hd1, hlog⟩ := Prod.mk.inj h
    have hcpu : d1.i_cpu_layouts_ = d.i_cpu_layouts_.set i.toNat layout := by rw [← hd1]
    have hnum : d1.i_num_ = d.i_num_ := by rw [← hd1]
    have hlt1 : i < (InputNum d1 : Int) := by
      unfold InputNum at hlt ⊢
      rw [hnum]; exact hlt
    have hlen1 : d1.i_cpu_layouts_.length = d1.i_num_ := by
      rw [hcpu, hnum, List.length_set]; exact inv.i_cpu
    refine ⟨hd1.symm, ?_, ?_, ?_⟩
    · intro j hj
      rw [hcpu]
      exact List.getElem?_set_ne (Ne.symm hj)
    · rw [SetCpuInputLayout_valid logOn d1 layout i hi h0 hlt1 hlen1 hl, hlog]
      have hsame : d1.i_cpu_layouts_.set i.toNat layout = d1.i_cpu_layouts_ := by
        rw [hcpu, List.set_set]
      rw [hsame]
    · intro layout2 d2 h2
      have hok2 : (SetCpuInputLayout logOn d1 layout2 i).2 = Except.ok () := by rw [h2]
      obtain ⟨-, -, hl2⟩ := SetCpuInputLayout_ok_cases logOn d1 layout2 i hi hok2
      rw [SetCpuInputLayout_valid logOn d1 layout2 i hi h0 hlt1 hlen1 hl2] at h2
      rw [SetCpuInputLayout_valid logOn d layout2 i hi h0 hlt inv.i_cpu hl2, ← h2]
      subst hd1
      simp only [List.set_set]
  · intro d1 h
    have hok : (SetCpuOutputLayout logOn d layout i).2 = Except.ok () := by rw [h]
    obtain ⟨h0, hlt, hl⟩ := SetCpuOutputLayout_ok_cases logOn d layout i hi hok
    have hset := SetCpuOutputLayout_valid logOn d layout i hi h0 hlt inv.o_cpu hl
    rw [hset] at h
    obtain ⟨hd1, hlog⟩ := Prod.mk.inj h
    have hcpu : d1.o_cpu_layouts_ = d.o_cpu_layouts_.set i.toNat layout := by rw [← hd1]
    have hnum : d1.o_num_ = d.o_num_ := by rw [← hd1]
    have hlt1 : i < (OutputNum d1 : Int) := by
      unfold OutputNum at hlt ⊢
      rw [hnum]; exact hlt
    have hlen1 : d1.o_cpu_layouts_.length = d1.o_num_ := by
      rw [hcpu, hnum, List.length_set]; exact inv.o_cpu
    refine ⟨hd1.symm, ?_, ?_, ?_⟩
    · intro j hj
      rw [hcpu]
      exact List.getElem?_set_ne (Ne.symm hj)
    · rw [SetCpuOutputLayout_valid logOn d1 layout i hi h0 hlt1 hlen1 hl, hlog]
      have hsame : d1.o_cpu_layouts_.set i.toNat layout = d1.o_cpu_layouts_ := by
        rw [hcpu, List.set_set]
      rw [hsame]
    · intro layout2 d2 h2
      have hok2 : (SetCpuOutputLayout logOn d1 layout2 i).2 = Except.ok () := by rw [h2]
      obtain ⟨-, -, hl2⟩ := SetCpuOutputLayout_ok_cases logOn d1 layout2 i hi hok2
      rw [SetCpuOutputLayout_valid logOn d1 layout2 i hi h0 hlt1 hlen1 hl2] at h2
      rw [SetCpuOutputLayout_valid logOn d layout2 i hi h0 hlt inv.o_cpu hl2, ← h2]
      subst hd1
      simp only [List.set_set]

theorem set_cpu_layout_frame_witness :
    (SetCpuInputLayout true sampleTable ⟨DataType.FLOAT32, DimOrder.NCHW⟩ 1).1 =
      { sampleTable with i_cpu_layouts_ :=
          sampleTable.i_cpu_layouts_.set (1 : Int).toNat ⟨DataType.FLOAT32, DimOrder.NCHW⟩ } ∧
    (SetCpuOutputLayout true sampleTable ⟨DataType.FLOAT32, DimOrder.NCHW⟩ 0).1 =
      { sampleTable with o_cpu_layouts_ :=
          sampleTable.o_cpu_layouts_.set (0 : Int).toNat ⟨DataType.FLOAT32, DimOrder.NCHW⟩ } :=
  ⟨((set_cpu_layout_frame true sampleTable sampleTable_loaded ⟨DataType.FLOAT32, DimOrder.NCHW⟩
      1 (by decide)).1 _ (by decide)).1,
   ((set_cpu_layout_frame true sampleTable sampleTable_loaded ⟨DataType.FLOAT32, DimOrder.NCHW⟩
      0 (by decide)).2 _ (by decide)).1⟩

/-! ## Host layouts stay FLOAT32 -/

theorem Loaded.cpu_rows_float32 {d : ModelLoaderPrivate} (h : Loaded d) :
    (∀ row ∈ d.i_cpu_layouts_, row.dtype = DataType.FLOAT32) ∧
    (∀ row ∈ d.o_cpu_layouts_, row.dtype = DataType.FLOAT32) := by
  induction h with
  | load rt d _ hd =>
    obtain ⟨inputs, outputs, i_mlu, o_mlu, -, -, -, -, -, -, hd1⟩ := LoadFunction_ok rt d hd
    subst hd1
    simp only [defaultCpuLayouts_eq]
    constructor
    · intro row hrow
      rw [List.eq_of_mem_replicate hrow]
    · intro row hrow
      rw [List.eq_of_mem_replicate hrow]
  | setInput logOn d layout i _ ih =>
    obtain ⟨v, hv, hcase⟩ := SetCpuInputLayout_state logOn d layout i
    rw [hv]
    refine ⟨fun row hrow => ?_, ih.2⟩
    rcases hcase with rfl | ⟨hl, rfl⟩
    · exact ih.1 row hrow
    · rcases List.mem_or_eq_of_mem_set hrow with hm | rfl
      · exact ih.1 row hm
      · exact hl
  | setOutput logOn d layout i _ ih =>
    obtain ⟨v, hv, hcase⟩ := SetCpuOutputLayout_state logOn d layout i
    rw [hv]
    refine ⟨ih.1, fun row hrow => ?_⟩
    rcases hcase with rfl | ⟨hl, rfl⟩
    · exact ih.2 row hrow
    · rcases List.mem_or_eq_of_mem_set hrow with hm | rfl
      · exact ih.2 row hm
      · exact hl

/-- C20: in every table reached from a load that ended without a fault by any
sequence of `SetCpuInputLayout` / `SetCpuOutputLayout` calls, whether they
succeed or fail, every stored host-layout row, input and output, has element
type FLOAT32, and `GetCpuInputLayout(i)`, `GetCpuOutputLayout(j)` return a
FLOAT32 layout for every valid index. -/
theorem host_layouts_stay_float32 (rt : CnrtRuntime) (hrt : rt.intCounts)
    (d0 : ModelLoaderPrivate) (hload : (LoadFunction rt).result = Except.ok d0)
    (calls : List SetterCall) :
    (∀ row ∈ (applySetters d0 calls).i_cpu_layouts_, row.dtype = DataType.FLOAT32) ∧
    (∀ row ∈ (applySetters d0 calls).o_cpu_layouts_, row.dtype = DataType.FLOAT32) ∧
    (∀ i : Int, 0 ≤ i → i < (InputNum (applySetters d0 calls) : Int) →
      ∃ row, GetCpuInputLayout (applySetters d0 calls) i = Except.ok row ∧
        row.dtype = DataType.FLOAT32) ∧
    (∀ j : Int, 0 ≤ j → j < (OutputNum (applySetters d0 calls) : Int) →
      ∃ row, GetCpuOutputLayout (applySetters d0 calls) j = Except.ok row ∧
        row.dtype = DataType.FLOAT32) := by
  have hd : Loaded (applySetters d0 calls) :=
    (Loaded.load rt d0 hrt hload).applySetters calls
  have inv := hd.inv
  obtain ⟨hin, hout⟩ := hd.cpu_rows_float32
  refine ⟨hin, hout, ?_, ?_⟩
  · intro i h0 hlt
    have hl : i.toNat < (applySetters d0 calls).i_cpu_layouts_.length := by
      have := inv.i_cpu
      unfold InputNum at hlt; omega
    refine ⟨_, ?_, hin _ (List.get_mem _ i.toNat hl)⟩
    rw [GetCpuInputLayout_valid _ i h0 hlt inv.i_num_le]
    exact vectorAt_of_lt _ _ hl
  · intro j h0 hlt
    have hl : j.toNat < (applySetters d0 calls).o_cpu_layouts_.length := by
      have := inv.o_cpu
      unfold OutputNum at hlt; omega
    refine ⟨_, ?_, hout _ (List.get_mem _ j.toNat hl)⟩
    rw [GetCpuOutputLayout_valid _ j h0 hlt inv.o_num_le]
    exact vectorAt_of_lt _ _ hl

theorem host_layouts_stay_float32_witness :
    ∃ row, GetCpuInputLayout
        (applySetters sampleTable
          [SetterCall.input true ⟨DataType.FLOAT32, DimOrder.NCHW⟩ 1,
           SetterCall.input true ⟨DataType.UINT8, DimOrder.NHWC⟩ 0,
           SetterCall.output true ⟨DataType.FLOAT32, DimOrder.other 2⟩ 0]) 1 = Except.ok row ∧
      row.dtype = DataType.FLOAT32 :=
  (host_layouts_stay_float32 sampleRuntime (by decide) sampleTable (by decide)
    [SetterCall.input true ⟨DataType.FLOAT32, DimOrder.NCHW⟩ 1,
     SetterCall.input true ⟨DataType.UINT8, DimOrder.NHWC⟩ 0,
     SetterCall.output true ⟨DataType.FLOAT32, DimOrder.other 2⟩ 0]).2.2.1 1
    (by decide) (by decide)

end edk
